import Mathlib

/-!
Fluctus: host-side OpenCL orchestration (`src/clcontext.cpp`, `src/geom.h`).

A shallow embedding of `CLContext` (constructor, `createPBO`, `setupScene`,
`setupParams`, `updateParams`, `executeKernel`, `errorString`), followed by the
properties proved about it: work-group sizing, the error table, the sequencing
of device calls and the fatal-error paths.

Conventions of the embedding.

* `cl_uint` / `unsigned int` values are naturals below `2 ^ 32`; arithmetic on
  them is reduced `% 2 ^ 32` where the C++ expression can wrap.
* `int` / `cl_int` values are integers; conversions from an unsigned pattern use
  two's complement (`toInt32`), and so does negation (`negInt32`).
* `size_t` is 64 bits wide (`toSizeT`).
* The `float` values that occur in `executeKernel` are non-negative; they are
  represented exactly (integers, or `mant * 2 ^ exp`), and every operation
  rounds to nearest, ties to even, as IEEE-754 arithmetic does.
* The drivers are an environment: every status code and every handle they hand
  back is an input of the model, and every call is recorded in a trace.
-/

namespace Fluctus

/-! ## Machine integers -/

/-- Bit pattern of an `int` seen as an unsigned 32-bit value. -/
def toU32 (i : Int) : Nat := (i % 2 ^ 32).toNat

/-- Conversion of an unsigned 32-bit pattern to `int` (two's complement). -/
def toInt32 (n : Nat) : Int :=
  if n % 2 ^ 32 < 2 ^ 31 then ((n % 2 ^ 32 : Nat) : Int) else ((n % 2 ^ 32 : Nat) : Int) - 2 ^ 32

/-- Conversion of an `int` to the 64-bit `size_t`. -/
def toSizeT (i : Int) : Nat := (i % 2 ^ 64).toNat

/-- The `int` negation `-err`, wrapping at `INT_MIN` as the compiled code does. -/
def negInt32 (i : Int) : Int := toInt32 (toU32 (-i))

/-- The `int` operator `a | b` on two's complement patterns (`err |= ...`). -/
def orInt32 (a b : Int) : Int := toInt32 (toU32 a ||| toU32 b)

/-- An `int` value: `INT_MIN ≤ i ≤ INT_MAX`. -/
def IsInt32 (i : Int) : Prop := -(2 ^ 31) ≤ i ∧ i < 2 ^ 31

instance (i : Int) : Decidable (IsInt32 i) := by unfold IsInt32; infer_instance

/-! ## `geom.h`: the render parameter record -/

/-- A `float3` of the FireRays math library: four 32-bit lanes (16 bytes). -/
structure Float3 where
  x : Nat
  y : Nat
  z : Nat
  w : Nat
deriving DecidableEq, Repr

/-- The `Camera` record of `geom.h`. -/
structure Camera where
  pos : Float3
  dir : Float3
  up : Float3
  right : Float3
  fov : Nat
deriving DecidableEq, Repr

/-- The `RenderParams` record of `geom.h`; the `cl_uint` fields are naturals
below `2 ^ 32`. -/
structure RenderParams where
  camera : Camera
  width : Nat
  height : Nat
  n_objects : Nat
  n_tris : Nat
  n_lights : Nat
  useEnvMap : Nat
  flashlight : Nat
deriving DecidableEq, Repr

/-! ## `executeKernel`: work-group geometry -/

/-- The local work-group sizes `ndRangeSizes[0]`, `ndRangeSizes[1]` chosen in
`executeKernel` from the queried `max_gw_size`. -/
def ndRangeSizes (max_gw_size : Nat) : Nat × Nat :=
  let s0 := 32
  (s0, max_gw_size / s0)

/-- The `int wgMultipleWidth` of `executeKernel`:
`((width & 0x1F) == 0) ? width : ((width & 0xFFFFFFE0) + 0x20)`, evaluated in
`unsigned int` and then converted to `int`. -/
def wgMultipleWidth (width : Nat) : Int :=
  toInt32 (if width &&& 0x1F = 0 then width else ((width &&& 0xFFFFFFE0) + 0x20) % 2 ^ 32)

/-- The first component of `cl::NDRange global(wgMultipleWidth, wgMutipleHeight)`:
the `int` is converted to `size_t`. -/
def globalWidth (width : Nat) : Nat := toSizeT (wgMultipleWidth width)

/-! ## `executeKernel`: the height rounding in `float` arithmetic -/

/-- Auxiliary recursion of `ilog2`; the first argument bounds the depth. -/
def log2Fuel : Nat → Nat → Nat
  | 0, _ => 0
  | f + 1, n => if 2 ≤ n then log2Fuel f (n / 2) + 1 else 0

/-- Position of the leading one bit of `n`. -/
def ilog2 (n : Nat) : Nat := log2Fuel n n

/-- Quotient `n / d` rounded to the nearest integer, ties to the even one. -/
def rneDiv (n d : Nat) : Nat :=
  if d < 2 * (n % d) ∨ (2 * (n % d) = d ∧ (n / d) % 2 = 1) then n / d + 1 else n / d

/-- Conversion of an unsigned integer to a binary floating-point format with
`p` significant bits (`(float) n` for `p = 24`, `(double) n` for `p = 53`);
also the rounding of an integer-valued product. -/
def roundNat (p n : Nat) : Nat :=
  if n < 2 ^ p then n else rneDiv n (2 ^ (ilog2 n + 1 - p)) * 2 ^ (ilog2 n + 1 - p)

/-- A non-negative finite floating-point value `mant * 2 ^ exp`. -/
structure FloatVal where
  mant : Nat
  exp : Int
deriving DecidableEq, Repr

/-- The correctly rounded quotient `a / b` of two integer-valued floats in a
format with `p` significant bits, for `b ≠ 0`: the exponent is chosen so that
the scaled quotient has `p` bits, and the scaled quotient is rounded to nearest
even. -/
def divF (p a b : Nat) : FloatVal :=
  if a = 0 then ⟨0, 0⟩
  else
    let e : Int := (ilog2 a : Int) - (ilog2 b : Int)
      - (if b * 2 ^ ilog2 a ≤ a * 2 ^ ilog2 b then 0 else 1) - ((p : Int) - 1)
    ⟨rneDiv (a * 2 ^ (-e).toNat) (b * 2 ^ e.toNat), e⟩

/-- The function `ceil` on a floating-point value (the result is an integer). -/
def ceilF (x : FloatVal) : Nat :=
  if 0 ≤ x.exp then x.mant * 2 ^ x.exp.toNat
  else (x.mant + 2 ^ (-x.exp).toNat - 1) / 2 ^ (-x.exp).toNat

/-- The cast `(int) v` of a non-negative integer-valued float; it has no defined
result beyond `INT_MAX`. -/
def castInt (v : Nat) : Option Int := if v < 2 ^ 31 then some (v : Int) else none

/-- The `int wgMutipleHeight` of `executeKernel`:
`(int)(ceil(height / (float) ndRangeSizes[1]) * ndRangeSizes[1])`.
The quotient is a `float` division of `(float) height` by `(float) localH`.
`pc` is the significand width of the type `ceil` returns, in which the product
is then computed: `24` when the `float` overload of `ceil` is selected, `53` when
the C function on `double` is. With `localH = 0` the quotient is infinite or NaN
and the cast has no defined result. -/
def wgMutipleHeight (pc height localH : Nat) : Option Int :=
  if localH = 0 then none
  else castInt (roundNat pc (ceilF (divF 24 (roundNat 24 height) (roundNat 24 localH))
    * roundNat pc localH))

/-- The `cl::NDRange global(wgMultipleWidth, wgMutipleHeight)` of `executeKernel`. -/
def globalRange (pc : Nat) (params : RenderParams) (localH : Nat) : Option (Nat × Nat) :=
  (wgMutipleHeight pc params.height localH).map fun h => (globalWidth params.width, toSizeT h)

/-- The second component of the global range, when it is defined. -/
def globalHeight (pc height max_gw_size : Nat) : Option Nat :=
  (wgMutipleHeight pc height (ndRangeSizes max_gw_size).2).map toSizeT

/-! ## `errorString` -/

/-- The `const int SIZE = 64` of `errorString`. -/
def SIZE : Int := 64

/-- The table `std::string errors[SIZE]` of `errorString`. -/
def errors : List String :=
  [ "CL_SUCCESS", "CL_DEVICE_NOT_FOUND", "CL_DEVICE_NOT_AVAILABLE",
    "CL_COMPILER_NOT_AVAILABLE", "CL_MEM_OBJECT_ALLOCATION_FAILURE",
    "CL_OUT_OF_RESOURCES", "CL_OUT_OF_HOST_MEMORY",
    "CL_PROFILING_INFO_NOT_AVAILABLE", "CL_MEM_COPY_OVERLAP",
    "CL_IMAGE_FORMAT_MISMATCH", "CL_IMAGE_FORMAT_NOT_SUPPORTED",
    "CL_BUILD_PROGRAM_FAILURE", "CL_MAP_FAILURE",
    "", "", "", "", "", "", "", "", "", "", "", "", "", "", "", "", "",
    "CL_INVALID_VALUE", "CL_INVALID_DEVICE_TYPE", "CL_INVALID_PLATFORM",
    "CL_INVALID_DEVICE", "CL_INVALID_CONTEXT", "CL_INVALID_QUEUE_PROPERTIES",
    "CL_INVALID_COMMAND_QUEUE", "CL_INVALID_HOST_PTR", "CL_INVALID_MEM_OBJECT",
    "CL_INVALID_IMAGE_FORMAT_DESCRIPTOR", "CL_INVALID_IMAGE_SIZE",
    "CL_INVALID_SAMPLER", "CL_INVALID_BINARY", "CL_INVALID_BUILD_OPTIONS",
    "CL_INVALID_PROGRAM", "CL_INVALID_PROGRAM_EXECUTABLE",
    "CL_INVALID_KERNEL_NAME", "CL_INVALID_KERNEL_DEFINITION", "CL_INVALID_KERNEL",
    "CL_INVALID_ARG_INDEX", "CL_INVALID_ARG_VALUE", "CL_INVALID_ARG_SIZE",
    "CL_INVALID_KERNEL_ARGS", "CL_INVALID_WORK_DIMENSION",
    "CL_INVALID_WORK_GROUP_SIZE", "CL_INVALID_WORK_ITEM_SIZE",
    "CL_INVALID_GLOBAL_OFFSET", "CL_INVALID_EVENT_WAIT_LIST", "CL_INVALID_EVENT",
    "CL_INVALID_OPERATION", "CL_INVALID_GL_OBJECT", "CL_INVALID_BUFFER_SIZE",
    "CL_INVALID_MIP_LEVEL", "CL_INVALID_GLOBAL_WORK_SIZE" ]

/-- The function `CLContext::errorString` as a function of the member `err`:
`ind = -err; return (ind >= 0 && ind < SIZE) ? errors[ind] : "unknown!"`.
The table read is `errors[ind]?`: the result is `none` exactly when the code
would read outside the table. -/
def errorString (err : Int) : Option String :=
  let ind := negInt32 err
  if 0 ≤ ind ∧ ind < SIZE then errors[ind.toNat]? else some "unknown!"

/-! ## Driver calls, console output, context members -/

/-- Values of `cl_mem_flags`. -/
inductive MemFlags
  | CL_MEM_READ_WRITE
  | CL_MEM_WRITE_ONLY
  | CL_MEM_READ_ONLY
deriving DecidableEq, Repr

/-- Host memory handed to a buffer write. -/
inductive HostData
  | test_spheres
  | params (p : RenderParams)
deriving DecidableEq, Repr

/-- Byte counts that the code obtains with `sizeof`. -/
inductive HostSize
  | sizeof_test_spheres
  | sizeof_RenderParams
deriving DecidableEq, Repr

/-- The calls into the OpenCL and OpenGL drivers that the code makes. Handles
(`cl_mem`, buffers, devices) are naturals, `0` being the null handle. -/
inductive DevOp
  | platformGet
  | getDevices (platform : Nat) (gpuOnly : Bool)
  | createContext (devices : List Nat)
  | createCommandQueue (context device : Nat)
  | kernelFromFile (path : String) (context : Nat)
  | programBuild (devices : List Nat) (options : String)
  | getBuildLog (device : Nat)
  | createKernel (name : String)
  | releaseMemObject (mem : Nat)
  | createFromGLBuffer (context : Nat) (flags : MemFlags) (bufobj : Nat)
  | createBuffer (context : Nat) (flags : MemFlags) (size : HostSize)
  | enqueueWriteBuffer (buffer : Nat) (blocking : Bool) (offset : Nat) (size : HostSize)
      (data : HostData)
  | glFinish
  | enqueueAcquireGLObjects (mem : Nat)
  | setArg (index value : Nat)
  | getInfoMaxWorkGroupSize (device : Nat)
  | enqueueNDRangeKernel (global loc : Nat × Nat)
  | finish
  | enqueueReleaseGLObjects (mem : Nat)
deriving DecidableEq, Repr

/-- A driver call together with the status code the driver produced for it
(`0` for calls that produce none). -/
structure Call where
  op : DevOp
  ret : Int
deriving DecidableEq, Repr

/-- One operand of a `std::cout <<` chain. -/
inductive Out
  | str (s : String)
  | int (i : Int)
  | nat (n : Nat)
  | ptr (p : Nat)
  | endl
deriving DecidableEq, Repr

/-- The data members of `CLContext` that the code reads and writes. The class
declaration (`clcontext.hpp`) is not among the sources; `err` is taken to be a
`cl_int` and `ndRangeSizes` an array of two `size_t`. -/
structure CLContext where
  clDevices : List Nat
  context : Nat
  device : Nat
  cmdQueue : Nat
  pt_kernel : Nat
  cl_PBO : Nat
  sphereBuffer : Nat
  renderParams : Nat
  err : Int
  ndRangeSizes : Nat × Nat
deriving DecidableEq, Repr

/-- How a member function ends: it returns, it calls `exit(code)`, or it executes
an operation without defined behaviour. -/
inductive Status
  | returned
  | exited (code : Nat)
  | undefined
deriving DecidableEq, Repr

/-- The observable run of a member function: final members, driver calls in
order, console output in order, and how it ended. -/
structure Run where
  ctx : CLContext
  ops : List Call
  out : List Out
  status : Status
deriving DecidableEq, Repr

/-- Sequencing of two pieces of code: the second runs only if the first returned. -/
def Run.andThen (r : Run) (f : CLContext → Run) : Run :=
  match r.status with
  | .returned => ⟨(f r.ctx).ctx, r.ops ++ (f r.ctx).ops, r.out ++ (f r.ctx).out, (f r.ctx).status⟩
  | _ => r

/-- The driver calls of a run without their status codes. -/
def Run.calls (r : Run) : List DevOp := r.ops.map Call.op

/-- The common tail of the fatal branches:
`std::cout << errorString() << std::endl; exit(1);` after the message `msg`. -/
def exitWithErrorString (c : CLContext) (ops : List Call) (msg : List Out) : Run :=
  match errorString c.err with
  | some s => ⟨c, ops, msg ++ [.str s, .endl], .exited 1⟩
  | none => ⟨c, ops, msg, .undefined⟩

/-! ## `createPBO`, `setupScene`, `setupParams`, `updateParams` -/

/-- The function `CLContext::createPBO`. `created` is what `clCreateFromGLBuffer`
hands back: the new handle (null on failure) and the code stored through `&err`. -/
def createPBO (gl_PBO : Nat) (created : Nat × Int) (c : CLContext) : Run :=
  let ops1 : List Call := if c.cl_PBO ≠ 0 then [⟨.releaseMemObject c.cl_PBO, 0⟩] else []
  let out1 : List Out := if c.cl_PBO ≠ 0 then [.str "Removing old CL-PBO", .endl] else []
  let c1 : CLContext := { c with cl_PBO := created.1, err := created.2 }
  let ops2 : List Call := ops1 ++ [⟨.createFromGLBuffer c.context .CL_MEM_READ_WRITE gl_PBO, created.2⟩]
  if c1.cl_PBO = 0 then
    ⟨c1, ops2, out1 ++ [.str "Error: CL-PBO creation failed!", .endl], .returned⟩
  else
    ⟨c1, ops2, out1 ++ [.str "Created CL-PBO at ", .ptr c1.cl_PBO, .endl], .returned⟩

/-- What the driver answers during `setupScene`. -/
structure SceneEnv where
  sizeof_cl_float : Nat
  sizeof_cl_float4 : Nat
  sizeof_Sphere : Nat
  s_bytes : Nat
  test_spheres : Nat
  buffer : Nat × Int
  writeRet : Int
deriving DecidableEq, Repr

/-- The function `CLContext::setupScene`. -/
def setupScene (env : SceneEnv) (c : CLContext) : Run :=
  let out0 : List Out :=
    [ .str "cl_float size: ", .nat env.sizeof_cl_float, .str "B", .endl,
      .str "cl_float4 size: ", .nat env.sizeof_cl_float4, .str "B", .endl,
      .str "Sphere size: ", .nat env.sizeof_Sphere, .str "B", .endl,
      .str "Sphere buffer size: ", .nat env.s_bytes, .str "B", .endl ]
  let c1 : CLContext := { c with sphereBuffer := env.buffer.1, err := env.buffer.2 }
  let ops1 : List Call := [⟨.createBuffer c.context .CL_MEM_READ_WRITE .sizeof_test_spheres, env.buffer.2⟩]
  if c1.err ≠ 0 then
    exitWithErrorString c1 ops1
      (out0 ++ [.str "Error: scene buffer creation failed!", .int c1.err, .endl])
  else
    let c2 : CLContext := { c1 with err := env.writeRet }
    let ops2 : List Call := ops1 ++
      [⟨.enqueueWriteBuffer c1.sphereBuffer true 0 .sizeof_test_spheres .test_spheres, env.writeRet⟩]
    if c2.err ≠ 0 then
      match errorString c2.err with
      | some s =>
        ⟨c2, ops2, out0 ++ [.str "Error: scene buffer writing failed!", .endl, .str s, .endl,
          .str "Scene buffer is at: ", .ptr env.test_spheres, .endl], .exited 1⟩
      | none => ⟨c2, ops2, out0 ++ [.str "Error: scene buffer writing failed!", .endl], .undefined⟩
    else
      ⟨c2, ops2, out0 ++ [.str "Scene initialization succeeded!", .endl], .returned⟩

/-- The function `CLContext::setupParams`; `buffer` is the handle and the code
that the buffer constructor hands back. -/
def setupParams (buffer : Nat × Int) (c : CLContext) : Run :=
  let c1 : CLContext := { c with renderParams := buffer.1, err := buffer.2 }
  let ops1 : List Call := [⟨.createBuffer c.context .CL_MEM_READ_WRITE .sizeof_RenderParams, buffer.2⟩]
  if c1.err ≠ 0 then
    exitWithErrorString c1 ops1 [.str "Error: test buffer creation failed!", .int c1.err, .endl]
  else
    ⟨c1, ops1, [.str "RenderParam allocation succeeded!", .endl], .returned⟩

/-- The function `CLContext::updateParams`; `writeRet` is the code returned by
the blocking write. -/
def updateParams (params : RenderParams) (writeRet : Int) (c : CLContext) : Run :=
  let c1 : CLContext := { c with err := writeRet }
  let ops1 : List Call :=
    [⟨.enqueueWriteBuffer c.renderParams true 0 .sizeof_RenderParams (.params params), writeRet⟩]
  if c1.err ≠ 0 then
    exitWithErrorString c1 ops1 [.str "Error: RenderParam writing failed!", .endl]
  else
    ⟨c1, ops1, [], .returned⟩

/-! ## `executeKernel` -/

/-- What the drivers answer during one `executeKernel`: the status code of each
call and the queried `CL_DEVICE_MAX_WORK_GROUP_SIZE`. -/
structure DispatchEnv where
  acquireRet : Int
  setArg0 : Int
  setArg1 : Int
  setArg2 : Int
  getInfoRet : Int
  max_gw_size : Nat
  enqueueRet : Int
  finishRet : Int
  releaseRet : Int
deriving DecidableEq, Repr

/-- The function `CLContext::executeKernel`; `pc` is explained at
`wgMutipleHeight`. -/
def executeKernel (pc : Nat) (params : RenderParams) (env : DispatchEnv) (c : CLContext) : Run :=
  let ops1 : List Call :=
    [ ⟨.glFinish, 0⟩, ⟨.enqueueAcquireGLObjects c.cl_PBO, env.acquireRet⟩,
      ⟨.setArg 0 c.cl_PBO, env.setArg0⟩, ⟨.setArg 1 c.sphereBuffer, env.setArg1⟩,
      ⟨.setArg 2 c.renderParams, env.setArg2⟩ ]
  let c1 : CLContext :=
    { c with err := orInt32 (orInt32 (orInt32 0 env.setArg0) env.setArg1) env.setArg2 }
  if c1.err ≠ 0 then
    ⟨c1, ops1, [.str "Error: Failed to set kernel arguments! ", .int c1.err, .endl], .exited 1⟩
  else
    let c2 : CLContext := { c1 with err := env.getInfoRet }
    let ops2 : List Call := ops1 ++ [⟨.getInfoMaxWorkGroupSize c.device, env.getInfoRet⟩]
    if c2.err ≠ 0 then
      exitWithErrorString c2 ops2
        [.str "Error: Failed to retrieve kernel work group info! ", .int c2.err, .endl]
    else
      let c3 : CLContext := { c2 with ndRangeSizes := ndRangeSizes env.max_gw_size }
      match globalRange pc params c3.ndRangeSizes.2 with
      | none => ⟨c3, ops2, [], .undefined⟩
      | some global =>
        ⟨c3, ops2 ++
          [ ⟨.enqueueNDRangeKernel global c3.ndRangeSizes, env.enqueueRet⟩,
            ⟨.finish, env.finishRet⟩,
            ⟨.enqueueReleaseGLObjects c.cl_PBO, env.releaseRet⟩ ], [], .returned⟩

/-! ## The constructor -/

/-- Values of `CL_DEVICE_TYPE` that matter to the enumeration. -/
inductive DeviceType
  | gpu
  | cpu
  | other
deriving DecidableEq, Repr

/-- What the driver reports about one device. -/
structure Device where
  id : Nat
  name : String
  type : DeviceType
  vendor : String
  computeUnits : Nat
  globalMem : Nat
  clock : Nat
  maxAlloc : Nat
  localMem : Nat
  available : Nat
deriving DecidableEq, Repr

/-- What the driver reports about one platform; `getDevicesRet` is the status
code of a device query on it. -/
structure Platform where
  name : String
  devices : List Device
  getDevicesRet : Int
deriving DecidableEq, Repr

/-- What the drivers answer during construction. -/
structure InitEnv where
  platformGetRet : Int
  platforms : List Platform
  context : Nat × Int
  cmdQueue : Nat × Int
  programRet : Int
  buildRet : Int
  buildLog : String
  kernel : Nat × Int
  pbo : Nat × Int
  scene : SceneEnv
  params : Nat × Int
deriving DecidableEq, Repr

/-- The lines that `printDevices` prints for one device. -/
def printDevice (device_id : Nat) (d : Device) : List Out :=
  [ .str "Device ", .int device_id, .str ": ", .endl,
    .str "\tName: ", .str d.name, .endl,
    .str "\tType: ", .str (if d.type = .gpu then "(GPU)" else "(CPU)"), .endl,
    .str "\tVendor: ", .str d.vendor, .endl,
    .str "\tCompute Units: ", .nat d.computeUnits, .endl,
    .str "\tGlobal Memory: ", .nat d.globalMem, .endl,
    .str "\tMax Clock Frequency: ", .nat d.clock, .endl,
    .str "\tMax Allocateable Memory: ", .nat d.maxAlloc, .endl,
    .str "\tLocal Memory: ", .nat d.localMem, .endl,
    .str "\tAvailable: ", .nat d.available, .endl ]

/-- The inner loop of `printDevices` over the devices of one platform, from
the running counter `device_id`. -/
def printDeviceList : Nat → List Device → List Out
  | _, [] => []
  | device_id, d :: ds => printDevice device_id d ++ printDeviceList (device_id + 1) ds

/-- The devices that `getDevices(CL_DEVICE_TYPE_GPU | CL_DEVICE_TYPE_CPU)` yields. -/
def gpuCpuDevices (p : Platform) : List Device := p.devices.filter fun d => d.type ≠ .other

/-- The devices that `getDevices(CL_DEVICE_TYPE_GPU)` yields. -/
def gpuDevices (p : Platform) : List Device := p.devices.filter fun d => d.type = .gpu

/-- The outer loop of `printDevices`, from the counters `platform_id` and
`device_id`: the driver calls and the output. -/
def printPlatforms : Nat → Nat → List Platform → List Call × List Out
  | _, _, [] => ([], [])
  | platform_id, device_id, p :: ps =>
    let rest := printPlatforms (platform_id + 1) (device_id + (gpuCpuDevices p).length) ps
    (⟨.getDevices platform_id false, p.getDevicesRet⟩ :: rest.1,
      [ .str "================", .str " Platform ", .int platform_id, .str " (", .str p.name,
        .str ") ", .str "================", .endl ]
      ++ printDeviceList device_id (gpuCpuDevices p) ++ [.endl] ++ rest.2)

/-- The function `CLContext::printDevices`. -/
def printDevices (env : InitEnv) (c : CLContext) : Run :=
  ⟨c, ⟨.platformGet, env.platformGetRet⟩ :: (printPlatforms 0 0 env.platforms).1,
    [.str "Number of Platforms: ", .nat env.platforms.length, .endl]
      ++ (printPlatforms 0 0 env.platforms).2, .returned⟩

/-- Constructor, device selection: `platforms[0]`, the GPU devices of that
platform, and the removal of the first of them. Indexing an empty platform list
and erasing the first element of an empty device list have no defined behaviour. -/
def selectDevices (env : InitEnv) (c : CLContext) : Run :=
  match env.platforms with
  | [] => ⟨c, [⟨.platformGet, env.platformGetRet⟩], [], .undefined⟩
  | platform :: _ =>
    let ops1 : List Call :=
      [⟨.platformGet, env.platformGetRet⟩, ⟨.getDevices 0 true, platform.getDevicesRet⟩]
    let out1 : List Out := [.str "Using platform 0", .endl, .str "Forcing GPU device", .endl]
    match (gpuDevices platform).map Device.id with
    | [] => ⟨{ c with clDevices := [] }, ops1, out1, .undefined⟩
    | _ :: rest => ⟨{ c with clDevices := rest }, ops1, out1, .returned⟩

/-- Constructor, creation of the shared context and choice of its device nr. 0.
`apple` selects the branch of the conditional compilation; the branches differ
in the property list and in one message. -/
def createSharedContext (apple : Bool) (env : InitEnv) (c : CLContext) : Run :=
  let out0 : List Out := if apple then [] else [.str "Creating non-mac context!", .endl]
  let c1 : CLContext := { c with context := env.context.1, err := env.context.2 }
  let ops1 : List Call := [⟨.createContext c.clDevices, env.context.2⟩]
  if c1.err ≠ 0 then
    exitWithErrorString c1 ops1 (out0 ++ [.str "Error: Failed to create shared context", .endl])
  else
    match c1.clDevices with
    | [] => ⟨c1, ops1, out0, .undefined⟩
    | d :: _ =>
      ⟨{ c1 with device := d }, ops1, out0 ++ [.str "Using device nr. 0 of context", .endl],
        .returned⟩

/-- Constructor, creation of the command queue. -/
def createCommandQueue (env : InitEnv) (c : CLContext) : Run :=
  let c1 : CLContext := { c with cmdQueue := env.cmdQueue.1, err := env.cmdQueue.2 }
  let ops1 : List Call := [⟨.createCommandQueue c.context c.device, env.cmdQueue.2⟩]
  if c1.err ≠ 0 then
    exitWithErrorString c1 ops1 [.str "Error: Failed to create command queue!", .endl]
  else ⟨c1, ops1, [], .returned⟩

/-- Constructor, `kernelFromFile("src/kernel.cl", context, program, err)`. -/
def createProgram (env : InitEnv) (c : CLContext) : Run :=
  let c1 : CLContext := { c with err := env.programRet }
  let ops1 : List Call := [⟨.kernelFromFile "src/kernel.cl" c.context, env.programRet⟩]
  if c1.err ≠ 0 then
    exitWithErrorString c1 ops1 [.str "Error: Failed to create compute program! ", .endl]
  else ⟨c1, ops1, [], .returned⟩

/-- The lines printed by the constructor when the program build fails. -/
def buildFailureMessage (buildLog : String) : List Out :=
  [.str "Error: Failed to build compute program!", .endl, .str "Build log: ", .str buildLog, .endl]

/-- Constructor, `program.build(clDevices, "-I./src -DGPU")` and the build log. -/
def buildProgram (env : InitEnv) (c : CLContext) : Run :=
  let c1 : CLContext := { c with err := env.buildRet }
  let ops1 : List Call :=
    [⟨.programBuild c.clDevices "-I./src -DGPU", env.buildRet⟩, ⟨.getBuildLog c.device, 0⟩]
  if c1.err ≠ 0 then
    ⟨c1, ops1, buildFailureMessage env.buildLog, .exited 1⟩
  else ⟨c1, ops1, [], .returned⟩

/-- Constructor, `cl::Kernel(program, "trace", &err)`. -/
def createKernel (env : InitEnv) (c : CLContext) : Run :=
  let c1 : CLContext := { c with pt_kernel := env.kernel.1, err := env.kernel.2 }
  let ops1 : List Call := [⟨.createKernel "trace", env.kernel.2⟩]
  if c1.err ≠ 0 then
    exitWithErrorString c1 ops1 [.str "Error: Failed to create compute kernel!", .endl]
  else ⟨c1, ops1, [], .returned⟩

/-- The constructor `CLContext::CLContext(GLuint gl_PBO)`, from the members `c`
as they are when its body starts. -/
def construct (apple : Bool) (gl_PBO : Nat) (env : InitEnv) (c : CLContext) : Run :=
  ((((((((printDevices env c).andThen (selectDevices env)).andThen
    (createSharedContext apple env)).andThen (createCommandQueue env)).andThen
    (createProgram env)).andThen (buildProgram env)).andThen (createKernel env)).andThen
    (createPBO gl_PBO env.pbo)).andThen (setupScene env.scene) |>.andThen (setupParams env.params)

/-! ## Predicates on traces -/

/-- Acquisition of the shared image buffer for the compute side. -/
def DevOp.isAcquire : DevOp → Bool
  | .enqueueAcquireGLObjects _ => true
  | _ => false

/-- Release of the shared image buffer back to the display pipeline. -/
def DevOp.isRelease : DevOp → Bool
  | .enqueueReleaseGLObjects _ => true
  | _ => false

/-- Release of a memory object (`clReleaseMemObject`). -/
def DevOp.isReleaseMem : DevOp → Bool
  | .releaseMemObject _ => true
  | _ => false

/-- The driver calls whose status code the code inspects before it goes on
(`if (err != CL_SUCCESS)`). -/
def DevOp.checked : DevOp → Bool
  | .createContext _ => true
  | .createCommandQueue _ _ => true
  | .kernelFromFile _ _ => true
  | .programBuild _ _ => true
  | .createKernel _ => true
  | .createBuffer _ _ _ => true
  | .enqueueWriteBuffer _ _ _ _ _ => true
  | .setArg _ _ => true
  | .getInfoMaxWorkGroupSize _ => true
  | _ => false

/-- The calls that the code still makes between a failed inspected call and the
inspection itself: the remaining argument bindings and the build-log query. -/
def DevOp.followsFailure : DevOp → Bool
  | .setArg _ _ => true
  | .getBuildLog _ => true
  | _ => false

/-- An inspected call that did not return `CL_SUCCESS`. -/
def Call.failed (a : Call) : Prop := a.op.checked = true ∧ a.ret ≠ 0

/-- Fail-fast runs: a failed inspected call makes the run end in `exit(1)`, and
the only calls after it are those of `DevOp.followsFailure`. -/
def Run.failFast (r : Run) : Prop :=
  (∀ a ∈ r.ops, a.failed → r.status = .exited 1) ∧
    r.ops.Pairwise fun a b => a.failed → b.op.followsFailure = true

/-- The console output of the run contains the text that `errorString()` returns
for the final value of the member `err`. -/
def Run.printsErrorString (r : Run) : Prop :=
  ∃ s, errorString r.ctx.err = some s ∧ Out.str s ∈ r.out

/-- The run ends at the build failure of the constructor: its last driver call is
the build-log query and its last output is the build-failure message. -/
def Run.endsAtBuildFailure (r : Run) (buildLog : String) : Prop :=
  (∃ pre d, r.calls = pre ++ [DevOp.getBuildLog d]) ∧
    ∃ pre, r.out = pre ++ buildFailureMessage buildLog

/-- A fatal end of the constructor is reported: if the run called `exit(1)`, its
output contains the text of `errorString()`, or it is the exit of the build
failure, which prints the build log. -/
def Run.fatalReport (r : Run) (buildLog : String) : Prop :=
  r.status = .exited 1 → r.printsErrorString ∨ r.endsAtBuildFailure buildLog

/-! ## Sample inputs -/

/-- A context as it is after a successful construction. -/
def sampleCtx : CLContext :=
  { clDevices := [2], context := 10, device := 2, cmdQueue := 11, pt_kernel := 12, cl_PBO := 13,
    sphereBuffer := 14, renderParams := 15, err := 0, ndRangeSizes := (0, 0) }

/-- A parameter record for an 800 x 600 frame. -/
def sampleParams : RenderParams :=
  { camera := ⟨⟨0, 0, 0, 0⟩, ⟨0, 0, 0, 0⟩, ⟨0, 0, 0, 0⟩, ⟨0, 0, 0, 0⟩, 0⟩, width := 800,
    height := 600, n_objects := 1, n_tris := 0, n_lights := 1, useEnvMap := 0, flashlight := 0 }

/-- A dispatch in which every driver call succeeds on a device with maximum
work-group size 256. -/
def okDispatch : DispatchEnv :=
  { acquireRet := 0, setArg0 := 0, setArg1 := 0, setArg2 := 0, getInfoRet := 0,
    max_gw_size := 256, enqueueRet := 0, finishRet := 0, releaseRet := 0 }

/-- One platform with three GPU devices. -/
def samplePlatform : Platform :=
  { name := "P", getDevicesRet := 0,
    devices :=
      [ ⟨1, "igpu", .gpu, "V", 8, 1024, 1000, 512, 64, 1⟩,
        ⟨2, "dgpu", .gpu, "V", 16, 2048, 1200, 1024, 64, 1⟩,
        ⟨3, "cpu", .cpu, "V", 4, 4096, 3000, 2048, 32, 1⟩ ] }

/-- Sizes and answers of a successful scene upload. -/
def sampleScene : SceneEnv :=
  { sizeof_cl_float := 4, sizeof_cl_float4 := 16, sizeof_Sphere := 48, s_bytes := 96,
    test_spheres := 4096, buffer := (14, 0), writeRet := 0 }

/-- A construction in which every driver call succeeds. -/
def okInit : InitEnv :=
  { platformGetRet := 0, platforms := [samplePlatform], context := (10, 0), cmdQueue := (11, 0),
    programRet := 0, buildRet := 0, buildLog := "", kernel := (12, 0), pbo := (13, 0),
    scene := sampleScene, params := (15, 0) }

/-- The members before the constructor body runs. -/
def freshCtx : CLContext :=
  { clDevices := [], context := 0, device := 0, cmdQueue := 0, pt_kernel := 0, cl_PBO := 0,
    sphereBuffer := 0, renderParams := 0, err := 0, ndRangeSizes := (0, 0) }

/-! ## The width expression and its arithmetic reading -/

/-- The expression `((width & 0x1F) == 0) ? width : ((width & 0xFFFFFFE0) + 0x20)`
of `executeKernel` as evaluated in `unsigned int`, before the conversion to `int`;
`wgMultipleWidth` is its conversion. -/
def widthExpr (width : Nat) : Nat :=
  if width &&& 0x1F = 0 then width else ((width &&& 0xFFFFFFE0) + 0x20) % 2 ^ 32

/-- The arithmetic round-up `((W + 31) / 32) * 32` computed modulo `2 ^ 32`, as the
specification words it. -/
def roundUpMod32 (W : Nat) : Nat := ((W + 31) / 32 * 32) % 2 ^ 32

/-- The divisor of the height rounding, `(float) ndRangeSizes[1]`. -/
def heightDivisor (localH : Nat) : Nat := roundNat 24 localH

/-! ## Device buffers -/

/-- The byte count of a host object. -/
def HostData.size : HostData → HostSize
  | .test_spheres => .sizeof_test_spheres
  | .params _ => .sizeof_RenderParams

/-- What the host knows about the contents of the device buffers, by handle:
`some d` when the buffer holds the host object `d`, `none` otherwise. -/
abbrev DeviceMem := Nat → Option HostData

/-- The effect of one driver call on the buffer contents, as the OpenCL
specification gives it for `clEnqueueWriteBuffer`: when a blocking write of a
whole host object at offset 0 returns `CL_SUCCESS`, the buffer holds that
object; after any other write the content of the target is not known. Calls
other than writes leave the contents alone; kernel execution is not covered. -/
def Call.effect (a : Call) (m : DeviceMem) : DeviceMem :=
  match a.op with
  | .enqueueWriteBuffer buffer blocking offset size data =>
    fun h =>
      if h = buffer then
        (if a.ret = 0 ∧ blocking = true ∧ offset = 0 ∧ size = data.size then some data else none)
      else m h
  | _ => m

/-- The buffer contents after the driver calls of a run, from the contents `m`. -/
def Run.deviceAfter (r : Run) (m : DeviceMem) : DeviceMem :=
  r.ops.foldl (fun m a => a.effect m) m

/-! ## The OpenCL error constants -/

/-- Modelled from the spec: the OpenCL error constants with their numeric values,
which the specification refers to as the symbolic names of the error codes. They
are declared in the OpenCL header `CL/cl.h`, which is not among the sources; the
values are those of that header (OpenCL 1.2). -/
def clErrorCodes : List (Int × String) :=
  [ (0, "CL_SUCCESS"), (-1, "CL_DEVICE_NOT_FOUND"), (-2, "CL_DEVICE_NOT_AVAILABLE"),
    (-3, "CL_COMPILER_NOT_AVAILABLE"), (-4, "CL_MEM_OBJECT_ALLOCATION_FAILURE"),
    (-5, "CL_OUT_OF_RESOURCES"), (-6, "CL_OUT_OF_HOST_MEMORY"),
    (-7, "CL_PROFILING_INFO_NOT_AVAILABLE"), (-8, "CL_MEM_COPY_OVERLAP"),
    (-9, "CL_IMAGE_FORMAT_MISMATCH"), (-10, "CL_IMAGE_FORMAT_NOT_SUPPORTED"),
    (-11, "CL_BUILD_PROGRAM_FAILURE"), (-12, "CL_MAP_FAILURE"),
    (-13, "CL_MISALIGNED_SUB_BUFFER_OFFSET"),
    (-14, "CL_EXEC_STATUS_ERROR_FOR_EVENTS_IN_WAIT_LIST"),
    (-15, "CL_COMPILE_PROGRAM_FAILURE"), (-16, "CL_LINKER_NOT_AVAILABLE"),
    (-17, "CL_LINK_PROGRAM_FAILURE"), (-18, "CL_DEVICE_PARTITION_FAILED"),
    (-19, "CL_KERNEL_ARG_INFO_NOT_AVAILABLE"),
    (-30, "CL_INVALID_VALUE"), (-31, "CL_INVALID_DEVICE_TYPE"), (-32, "CL_INVALID_PLATFORM"),
    (-33, "CL_INVALID_DEVICE"), (-34, "CL_INVALID_CONTEXT"),
    (-35, "CL_INVALID_QUEUE_PROPERTIES"), (-36, "CL_INVALID_COMMAND_QUEUE"),
    (-37, "CL_INVALID_HOST_PTR"), (-38, "CL_INVALID_MEM_OBJECT"),
    (-39, "CL_INVALID_IMAGE_FORMAT_DESCRIPTOR"), (-40, "CL_INVALID_IMAGE_SIZE"),
    (-41, "CL_INVALID_SAMPLER"), (-42, "CL_INVALID_BINARY"),
    (-43, "CL_INVALID_BUILD_OPTIONS"), (-44, "CL_INVALID_PROGRAM"),
    (-45, "CL_INVALID_PROGRAM_EXECUTABLE"), (-46, "CL_INVALID_KERNEL_NAME"),
    (-47, "CL_INVALID_KERNEL_DEFINITION"), (-48, "CL_INVALID_KERNEL"),
    (-49, "CL_INVALID_ARG_INDEX"), (-50, "CL_INVALID_ARG_VALUE"),
    (-51, "CL_INVALID_ARG_SIZE"), (-52, "CL_INVALID_KERNEL_ARGS"),
    (-53, "CL_INVALID_WORK_DIMENSION"), (-54, "CL_INVALID_WORK_GROUP_SIZE"),
    (-55, "CL_INVALID_WORK_ITEM_SIZE"), (-56, "CL_INVALID_GLOBAL_OFFSET"),
    (-57, "CL_INVALID_EVENT_WAIT_LIST"), (-58, "CL_INVALID_EVENT"),
    (-59, "CL_INVALID_OPERATION"), (-60, "CL_INVALID_GL_OBJECT"),
    (-61, "CL_INVALID_BUFFER_SIZE"), (-62, "CL_INVALID_MIP_LEVEL"),
    (-63, "CL_INVALID_GLOBAL_WORK_SIZE"), (-64, "CL_INVALID_PROPERTY"),
    (-65, "CL_INVALID_IMAGE_DESCRIPTOR"), (-66, "CL_INVALID_COMPILER_OPTIONS"),
    (-67, "CL_INVALID_LINKER_OPTIONS"), (-68, "CL_INVALID_DEVICE_PARTITION_COUNT") ]

/-- The name of the OpenCL error constant with the numeric value `code`, if
there is one. -/
def clErrorName (code : Int) : Option String :=
  (clErrorCodes.find? fun p => p.1 = code).map Prod.snd

/-! ## Sample inputs: device enumeration -/

/-- A platform whose only device is a CPU; a query for GPU devices on it
returns `CL_DEVICE_NOT_FOUND`. -/
def cpuOnlyPlatform : Platform :=
  { name := "P", getDevicesRet := -1,
    devices := [⟨3, "cpu", .cpu, "V", 4, 4096, 3000, 2048, 32, 1⟩] }

/-- A platform with exactly one GPU device. -/
def oneGpuPlatform : Platform :=
  { name := "P", getDevicesRet := 0,
    devices := [⟨1, "gpu", .gpu, "V", 8, 1024, 1000, 512, 64, 1⟩] }

/-! ## Lemmas: bit masks -/

theorem and_1F_eq_mod (w : Nat) : w &&& 0x1F = w % 32 :=
  Nat.and_pow_two_sub_one_eq_mod w 5

theorem testBit_FFFFFFE0 (i : Nat) :
    Nat.testBit 0xFFFFFFE0 i = (decide (5 ≤ i) && decide (i < 32)) := by
  have h : (0xFFFFFFE0 : Nat) = 2 ^ 5 * (2 ^ 27 - 1) := by norm_num
  rw [h, Nat.testBit_mul_pow_two, Nat.testBit_two_pow_sub_one]
  by_cases h5 : 5 ≤ i
  · have : (decide (i - 5 < 27)) = decide (i < 32) := by
      apply decide_eq_decide.mpr; omega
    simp [h5, this]
  · simp [h5]

theorem and_FFFFFFE0_eq (w : Nat) (hw : w < 2 ^ 32) : w &&& 0xFFFFFFE0 = 32 * (w / 32) := by
  apply Nat.eq_of_testBit_eq
  intro i
  have h32 : 32 * (w / 32) = 2 ^ 5 * (w >>> 5) := by
    rw [Nat.shiftRight_eq_div_pow]; norm_num
  rw [Nat.testBit_and, testBit_FFFFFFE0, h32, Nat.testBit_mul_pow_two, Nat.testBit_shiftRight]
  by_cases h5 : 5 ≤ i
  · by_cases hi : i < 32
    · have : 5 + (i - 5) = i := by omega
      simp [h5, hi, this]
    · have hlt : w < 2 ^ i := lt_of_lt_of_le hw (Nat.pow_le_pow_right (by norm_num) (by omega))
      have : 5 + (i - 5) = i := by omega
      simp [h5, hi, this, Nat.testBit_lt_two_pow hlt]
  · simp [h5]

/-- The unsigned value of the width expression is the arithmetic round-up
modulo `2 ^ 32`. -/
theorem width_expr_eq (w : Nat) (hw : w < 2 ^ 32) :
    (if w &&& 0x1F = 0 then w else ((w &&& 0xFFFFFFE0) + 0x20) % 2 ^ 32)
      = ((w + 31) / 32 * 32) % 2 ^ 32 := by
  rw [and_1F_eq_mod, and_FFFFFFE0_eq w hw]
  split_ifs with h
  · have : (w + 31) / 32 * 32 = w := by omega
    rw [this, Nat.mod_eq_of_lt hw]
  · have : (w + 31) / 32 * 32 = 32 * (w / 32) + 0x20 := by omega
    rw [this]

theorem toSizeT_toInt32_of_lt (n : Nat) (h : n < 2 ^ 31) : toSizeT (toInt32 n) = n := by
  unfold toSizeT toInt32
  have h1 : n % 2 ^ 32 = n := Nat.mod_eq_of_lt (by omega)
  rw [h1, if_pos h]
  omega

theorem globalWidth_eq (w : Nat) (hw : w + 32 ≤ 2 ^ 31) :
    globalWidth w = (w + 31) / 32 * 32 := by
  unfold globalWidth wgMultipleWidth
  rw [width_expr_eq w (by omega)]
  have hlt : (w + 31) / 32 * 32 < 2 ^ 31 := by omega
  rw [Nat.mod_eq_of_lt (by omega), toSizeT_toInt32_of_lt _ hlt]

/-! ## Lemmas: the floating-point height rounding -/

theorem log2Fuel_spec (f : Nat) : ∀ n, 0 < n → n < 2 ^ f →
    2 ^ log2Fuel f n ≤ n ∧ n < 2 ^ (log2Fuel f n + 1) := by
  induction f with
  | zero => intro n h0 h1; simp at h1; omega
  | succ f ih =>
    intro n h0 h1
    unfold log2Fuel
    split_ifs with h2
    · have hlt : n / 2 < 2 ^ f := by
        rw [pow_succ] at h1; omega
      obtain ⟨a, b⟩ := ih (n / 2) (by omega) hlt
      constructor
      · rw [pow_succ]; omega
      · rw [pow_succ]; omega
    · constructor
      · simp; omega
      · simp; omega

theorem ilog2_spec (n : Nat) (h : 0 < n) : 2 ^ ilog2 n ≤ n ∧ n < 2 ^ (ilog2 n + 1) :=
  log2Fuel_spec n n h (Nat.lt_two_pow n)

theorem ilog2_lt_of_lt_pow (n k : Nat) (h : 0 < n) (hk : n < 2 ^ k) : ilog2 n < k := by
  by_contra hc
  have h1 : 2 ^ k ≤ 2 ^ ilog2 n := Nat.pow_le_pow_right (by norm_num) (by omega)
  have h2 := (ilog2_spec n h).1
  omega

theorem roundNat_of_lt (p n : Nat) (h : n < 2 ^ p) : roundNat p n = n := by
  unfold roundNat; rw [if_pos h]

theorem ilog2_two_pow (p : Nat) : ilog2 (2 ^ p) = p := by
  obtain ⟨h1, h2⟩ := ilog2_spec (2 ^ p) (Nat.two_pow_pos p)
  have h3 := (Nat.pow_le_pow_iff_right (by norm_num : 1 < 2)).mp h1
  have h4 := (Nat.pow_lt_pow_iff_right (by norm_num : 1 < 2)).mp h2
  omega

theorem roundNat_two_pow (p : Nat) (hp : 1 ≤ p) : roundNat p (2 ^ p) = 2 ^ p := by
  obtain ⟨k, rfl⟩ : ∃ k, p = k + 1 := ⟨p - 1, by omega⟩
  unfold roundNat rneDiv
  rw [if_neg (by omega), ilog2_two_pow]
  have h1 : k + 1 + 1 - (k + 1) = 1 := by omega
  have h2 : 2 ^ (k + 1) % 2 ^ 1 = 0 := by rw [pow_succ]; omega
  have h3 : 2 ^ (k + 1) / 2 ^ 1 = 2 ^ k := by rw [pow_succ]; omega
  rw [h1, h2, h3]
  simp [pow_succ]

theorem roundNat_of_le (p n : Nat) (hp : 1 ≤ p) (h : n ≤ 2 ^ p) : roundNat p n = n := by
  rcases Nat.lt_or_ge n (2 ^ p) with h1 | h1
  · exact roundNat_of_lt p n h1
  · have : n = 2 ^ p := by omega
    rw [this]; exact roundNat_two_pow p hp

/-- Rounding the scaled quotient and taking the ceiling gives the exact ceiling,
as soon as the divisor is below twice the scale. -/
theorem ceil_rneDiv_scaled (a b K : Nat) (hb : 1 ≤ b) (hK : 2 ≤ K) (hbK : b < 2 * K) :
    (rneDiv (a * K) b + K - 1) / K = (a + b - 1) / b := by
  have hbpos : 0 < b := hb
  have hKpos : 0 < K := by omega
  set q := a / b with hq
  set r := a % b with hr
  have ha : a = b * q + r := (Nat.div_add_mod a b).symm
  have hrlt : r < b := Nat.mod_lt a hbpos
  have hdiv : a * K / b = q * K + r * K / b := by
    rw [ha, Nat.add_mul, Nat.mul_assoc, Nat.add_comm, Nat.add_mul_div_left _ _ hbpos,
      Nat.add_comm]
  have hmod : a * K % b = r * K % b := by
    rw [ha, Nat.add_mul, Nat.mul_assoc, Nat.mul_add_mod]
  have htlt : r * K / b < K := by
    apply Nat.div_lt_of_lt_mul
    exact Nat.mul_lt_mul_of_pos_right hrlt hKpos
  by_cases hr0 : r = 0
  · have hm : rneDiv (a * K) b = q * K := by
      unfold rneDiv
      rw [hmod, hdiv, hr0]
      simp
      omega
    have hR : (a + b - 1) / b = q := by
      rw [ha, hr0]
      have : b * q + 0 + b - 1 = (b - 1) + q * b := by
        rw [Nat.mul_comm]; omega
      rw [this, Nat.add_mul_div_right _ _ hbpos, Nat.div_eq_of_lt (by omega)]
      omega
    rw [hm, hR]
    have : q * K + K - 1 = (K - 1) + q * K := by omega
    rw [this, Nat.add_mul_div_right _ _ hKpos, Nat.div_eq_of_lt (by omega)]
    omega
  · have hR : (a + b - 1) / b = q + 1 := by
      rw [ha]
      have : b * q + r + b - 1 = (r - 1) + (q + 1) * b := by
        rw [Nat.add_mul, Nat.mul_comm]; omega
      rw [this, Nat.add_mul_div_right _ _ hbpos, Nat.div_eq_of_lt (by omega)]
      omega
    have hm : ∃ s, 1 ≤ s ∧ s ≤ K ∧ rneDiv (a * K) b = q * K + s := by
      unfold rneDiv
      rw [hmod, hdiv]
      by_cases ht : r * K / b = 0
      · have hlt : r * K < b := (Nat.div_eq_zero_iff hbpos).mp ht
        have hmod2 : r * K % b = r * K := Nat.mod_eq_of_lt hlt
        have hge : K ≤ r * K := Nat.le_mul_of_pos_left K (by omega)
        refine ⟨1, le_refl 1, by omega, ?_⟩
        rw [hmod2, ht, if_pos (Or.inl (by omega))]
      · generalize r * K / b = t at ht htlt
        split_ifs
        · exact ⟨t + 1, by omega, by omega, by omega⟩
        · exact ⟨t, by omega, by omega, rfl⟩
    obtain ⟨s, hs1, hs2, hs⟩ := hm
    rw [hs, hR]
    have : q * K + s + K - 1 = (s - 1) + (q + 1) * K := by
      rw [Nat.add_mul]; omega
    rw [this, Nat.add_mul_div_right _ _ hKpos, Nat.div_eq_of_lt (by omega)]
    omega

theorem ceilF_scaled (a b la lb t : Nat) (hb : 1 ≤ b) (ha : a < 2 ^ 24) (hla : la < 24)
    (hlb : b < 2 ^ (lb + 1)) (ht1 : t ≤ 1) (ht : t = 0 → b * 2 ^ la ≤ a * 2 ^ lb) (e : Int)
    (he : e = (la : Int) - (lb : Int) - (t : Int) - 23) :
    ceilF ⟨rneDiv (a * 2 ^ (-e).toNat) (b * 2 ^ e.toNat), e⟩ = (a + b - 1) / b := by
  rcases Int.lt_or_le e 0 with hneg | hpos
  · obtain ⟨k, hk⟩ : ∃ k : Nat, (-e).toNat = k := ⟨_, rfl⟩
    have he0 : e.toNat = 0 := by omega
    have hkl : k + la = lb + t + 23 := by omega
    have hk1 : 1 ≤ k := by omega
    have h2k : 2 ≤ 2 ^ k := by
      calc 2 = 2 ^ 1 := by norm_num
        _ ≤ 2 ^ k := Nat.pow_le_pow_right (by norm_num) hk1
    have hbK : b < 2 * 2 ^ k := by
      rcases Nat.eq_zero_or_pos t with h0 | h1
      · have h1 := ht h0
        have h2 : a * 2 ^ lb < 2 ^ 24 * 2 ^ lb :=
          Nat.mul_lt_mul_of_pos_right ha (Nat.two_pow_pos lb)
        have h3 : 2 ^ 24 * 2 ^ lb = 2 * 2 ^ k * 2 ^ la := by
          have : 24 + lb = 1 + k + la := by omega
          rw [← pow_add, this, pow_add, pow_add, pow_one]
        have h4 : b * 2 ^ la < 2 * 2 ^ k * 2 ^ la := by omega
        exact Nat.lt_of_mul_lt_mul_right h4
      · have h5 : 2 ^ (lb + 1) ≤ 2 ^ k := Nat.pow_le_pow_right (by norm_num) (by omega)
        omega
    unfold ceilF
    simp only []
    rw [if_neg (by omega), hk, he0, pow_zero, Nat.mul_one]
    exact ceil_rneDiv_scaled a b (2 ^ k) hb h2k hbK
  · have hlb0 : lb = 0 := by omega
    have he0 : e = 0 := by omega
    subst hlb0
    subst he0
    have hb1 : b = 1 := by
      simp at hlb; omega
    subst hb1
    simp [ceilF, rneDiv, Nat.mod_one]

/-- On integers below `2 ^ 24` the `float` quotient followed by `ceil` is the
exact ceiling of the quotient. -/
theorem ceilF_divF (a b : Nat) (hb : 1 ≤ b) (ha : a < 2 ^ 24) :
    ceilF (divF 24 a b) = (a + b - 1) / b := by
  by_cases ha0 : a = 0
  · subst ha0
    have : (b - 1) / b = 0 := Nat.div_eq_of_lt (by omega)
    simp [divF, ceilF, this]
  · have hla := ilog2_lt_of_lt_pow a 24 (by omega) ha
    have hlb := (ilog2_spec b hb).2
    unfold divF
    rw [if_neg ha0]
    by_cases hc : b * 2 ^ ilog2 a ≤ a * 2 ^ ilog2 b
    · exact ceilF_scaled a b (ilog2 a) (ilog2 b) 0 hb ha hla hlb (by omega) (fun _ => hc) _
        (by simp [hc])
    · exact ceilF_scaled a b (ilog2 a) (ilog2 b) 1 hb ha hla hlb (by omega) (by omega) _
        (by simp [hc])

theorem wgMutipleHeight_eq (pc H L : Nat) (hpc : 24 ≤ pc) (hL : 1 ≤ L) (hB : H + L ≤ 2 ^ 24) :
    wgMutipleHeight pc H L = some (((H + L - 1) / L * L : Nat) : Int) := by
  have hH24 : H < 2 ^ 24 := by omega
  have hL24 : L ≤ 2 ^ 24 := by omega
  have hpow : 2 ^ 24 ≤ 2 ^ pc := Nat.pow_le_pow_right (by norm_num) hpc
  have hLpc : L ≤ 2 ^ pc := by omega
  have hmul : (H + L - 1) / L * L ≤ H + L - 1 := Nat.div_mul_le_self _ _
  unfold wgMutipleHeight
  rw [if_neg (by omega), roundNat_of_lt 24 H hH24, roundNat_of_le 24 L (by norm_num) hL24,
    roundNat_of_le pc L (by omega) hLpc, ceilF_divF H L hL hH24, roundNat_of_lt pc _ (by omega)]
  unfold castInt
  rw [if_pos (by omega)]

theorem toSizeT_natCast (n : Nat) (h : n < 2 ^ 64) : toSizeT (n : Int) = n := by
  unfold toSizeT
  omega

/-- The value `(H + L - 1) / L * L` is the least multiple of `L` that is at least `H`. -/
theorem roundUp_least (H L : Nat) (hL : 1 ≤ L) :
    L ∣ (H + L - 1) / L * L ∧ H ≤ (H + L - 1) / L * L ∧ (H + L - 1) / L * L < H + L ∧
      ∀ m, L ∣ m → H ≤ m → (H + L - 1) / L * L ≤ m := by
  have hLpos : 0 < L := hL
  have h1 : (H + L - 1) / L * L ≤ H + L - 1 := Nat.div_mul_le_self _ _
  have h2 : H + L - 1 < ((H + L - 1) / L + 1) * L := by
    rw [Nat.mul_comm]; exact Nat.lt_mul_div_succ _ hLpos
  refine ⟨Nat.dvd_mul_left _ _, ?_, by omega, ?_⟩
  · rw [Nat.add_mul] at h2; omega
  · rintro m ⟨k, rfl⟩ hm
    rw [Nat.mul_comm L k]
    apply Nat.mul_le_mul_right
    apply (Nat.div_le_iff_le_mul_add_pred hLpos).mpr
    have : H ≤ L * k := hm
    omega

/-! ## Lemmas: `errorString` -/

theorem negInt32_eq (err : Int) (h : IsInt32 err) :
    negInt32 err = if err = -(2 ^ 31) then -(2 ^ 31) else -err := by
  unfold IsInt32 at h
  unfold negInt32 toInt32 toU32
  split_ifs <;> omega

theorem errorString_sentinel (err : Int) (h : IsInt32 err) (hr : 0 < err ∨ err < -63) :
    errorString err = some "unknown!" := by
  unfold errorString
  simp only []
  rw [negInt32_eq err h]
  unfold IsInt32 at h
  unfold SIZE
  rw [if_neg]
  split_ifs <;> omega

theorem errorString_table (n : Nat) (hn : n < 64) :
    errorString (-(n : Int)) = errors[n]? ∧ errorString (-(n : Int)) ≠ none ∧
      (errorString (-(n : Int)) = some "" ↔ (13 ≤ n ∧ n ≤ 29)) := by
  interval_cases n <;> decide

theorem errorString_range (err : Int) (h0 : -63 ≤ err) (h1 : err ≤ 0) :
    errorString err = errors[(-err).toNat]? ∧ errorString err ≠ none ∧
      (errorString err = some "" ↔ (-29 ≤ err ∧ err ≤ -13)) := by
  obtain ⟨n, hn⟩ : ∃ n : Nat, err = -(n : Int) := ⟨(-err).toNat, by omega⟩
  subst hn
  have hn64 : n < 64 := by omega
  obtain ⟨a, b, c⟩ := errorString_table n hn64
  refine ⟨?_, b, ?_⟩
  · rw [a]; congr 1; omega
  · rw [c]; omega

theorem errorString_ne_none (err : Int) (h : IsInt32 err) : errorString err ≠ none := by
  by_cases hr : 0 < err ∨ err < -63
  · rw [errorString_sentinel err h hr]; simp
  · exact (errorString_range err (by omega) (by omega)).2.1

/-! ## Work-group geometry (C1, C2, C3) -/

/-- C1, counterexample: at the width `W = 2 ^ 32 - 1` the expression
`(W & 0xFFFFFFE0) + 0x20` wraps to `0`, so the computed global width is `0`,
which is not `>= W`. -/
theorem C1_width_wraps :
    globalWidth 4294967295 = 0 ∧ ¬ (4294967295 ≤ globalWidth 4294967295) := by
  decide

/-- C1, amended: for every frame width `W` with `W + 32 ≤ 2 ^ 31` (the round-up
fits the `int` that holds it) the global work-group width computed by
`executeKernel` is the smallest multiple of 32 that is `>= W`: it is divisible by
32, it is `>= W`, it is `< W + 32`, no smaller multiple of 32 is `>= W`, and it
equals `W` when `W` is a multiple of 32. -/
theorem C1_globalWidth_roundUp (W : Nat) (hW : W + 32 ≤ 2 ^ 31) :
    32 ∣ globalWidth W ∧ W ≤ globalWidth W ∧ globalWidth W < W + 32 ∧
      (∀ m, 32 ∣ m → W ≤ m → globalWidth W ≤ m) ∧ (32 ∣ W → globalWidth W = W) := by
  rw [globalWidth_eq W hW]
  refine ⟨Nat.dvd_mul_left _ _, by omega, by omega, ?_, ?_⟩
  · intro m hm hWm
    omega
  · intro h
    omega

/-- C1, witness: the widths 1920 and 800 of the scenarios give 1920 and 800. -/
theorem C1_globalWidth_roundUp_witness :
    (1920 + 32 ≤ 2 ^ 31 ∧ globalWidth 1920 = 1920) ∧ (800 + 32 ≤ 2 ^ 31 ∧ globalWidth 800 = 800) :=
  ⟨⟨by norm_num, (C1_globalWidth_roundUp 1920 (by norm_num)).2.2.2.2 (by decide)⟩,
    ⟨by norm_num, (C1_globalWidth_roundUp 800 (by norm_num)).2.2.2.2 (by decide)⟩⟩

/-- C2, counterexample: the height `H = 2 ^ 24 + 1` with a maximum work-group
size of 32 (local height 1). `(float) H` is `2 ^ 24`, so the computed global
height is `16777216`, which is below `H`; this holds for either type of `ceil`. -/
theorem C2_height_float_loss :
    globalHeight 24 16777217 32 = some 16777216 ∧ globalHeight 53 16777217 32 = some 16777216 ∧
      (ndRangeSizes 32).2 = 1 ∧ ¬ (16777217 ≤ 16777216) := by
  decide

/-- C2, amended: for every frame height `H` and maximum work-group size `M` with
local height `L = M / 32 >= 1` and `H + L ≤ 2 ^ 24` (all intermediate values are
exact in `float`), the global work-group height computed by `executeKernel` is
defined and is the smallest multiple of `L` that is `>= H`: it is divisible by
`L`, it is `>= H`, it is `< H + L`, and no smaller multiple of `L` is `>= H`. -/
theorem C2_globalHeight_roundUp (pc H M : Nat) (hpc : 24 ≤ pc) (hL : 1 ≤ M / 32)
    (hB : H + M / 32 ≤ 2 ^ 24) :
    ∃ g, globalHeight pc H M = some g ∧ M / 32 ∣ g ∧ H ≤ g ∧ g < H + M / 32 ∧
      ∀ m, M / 32 ∣ m → H ≤ m → g ≤ m := by
  refine ⟨(H + M / 32 - 1) / (M / 32) * (M / 32), ?_, roundUp_least H (M / 32) hL⟩
  have h1 := (roundUp_least H (M / 32) hL).2.2.1
  unfold globalHeight ndRangeSizes
  simp only []
  rw [wgMutipleHeight_eq pc H (M / 32) hpc hL hB, Option.map_some',
    toSizeT_natCast _ (by omega)]

/-- C2, witness: height 1080 with maximum work-group size 1024 gives 1088,
height 600 with maximum work-group size 256 gives 600. -/
theorem C2_globalHeight_roundUp_witness :
    (24 ≤ 24 ∧ 1 ≤ 1024 / 32 ∧ 1080 + 1024 / 32 ≤ 2 ^ 24 ∧
      ∃ g, globalHeight 24 1080 1024 = some g ∧ 1024 / 32 ∣ g ∧ 1080 ≤ g ∧ g < 1080 + 1024 / 32 ∧
        ∀ m, 1024 / 32 ∣ m → 1080 ≤ m → g ≤ m) ∧
    globalHeight 24 1080 1024 = some 1088 ∧ globalHeight 24 600 256 = some 600 :=
  ⟨⟨by norm_num, by norm_num, by norm_num,
    C2_globalHeight_roundUp 24 1080 1024 (by norm_num) (by norm_num) (by norm_num)⟩,
    by decide, by decide⟩

/-- C3: for every maximum work-group size `M` reported by the device,
`executeKernel` chooses the local work-group dimensions `(32, M / 32)` with
integer division, and their product is `<= M`; `M = 1024` gives `(32, 32)` and
`M = 256` gives `(32, 8)`. -/
theorem C3_local_size (M : Nat) :
    ndRangeSizes M = (32, M / 32) ∧ (ndRangeSizes M).1 * (ndRangeSizes M).2 ≤ M ∧
      ndRangeSizes 1024 = (32, 32) ∧ ndRangeSizes 256 = (32, 8) := by
  refine ⟨rfl, ?_, by decide, by decide⟩
  show 32 * (M / 32) ≤ M
  omega

/-! ## The error table (C4, C5) -/

/-- C4, counterexample: the code `-13` lies in the range of the table and
`errorString` returns the empty string for it. -/
theorem C4_empty_entry : errorString (-13) = some "" := by
  decide

/-- C4, amended: for every error code in the range of the table (`err` from -63
to 0) `errorString` returns the table entry at index `-err` without leaving the
table; the entry is a non-empty name for `err` from -12 to 0 and from -63 to -30,
and it is the empty string exactly for `err` from -29 to -13. -/
theorem C4_errorString_in_range (err : Int) (h0 : -63 ≤ err) (h1 : err ≤ 0) :
    errorString err = errors[(-err).toNat]? ∧ errorString err ≠ none ∧
      (errorString err = some "" ↔ (-29 ≤ err ∧ err ≤ -13)) := by
  exact errorString_range err h0 h1

/-- C4, witness: the code -11 yields the name of the build failure. -/
theorem C4_errorString_in_range_witness :
    (-63 : Int) ≤ -11 ∧ (-11 : Int) ≤ 0 ∧ errorString (-11) = some "CL_BUILD_PROGRAM_FAILURE" ∧
      (errorString (-11) = some "" ↔ ((-29 : Int) ≤ -11 ∧ (-11 : Int) ≤ -13)) :=
  ⟨by decide, by decide, by decide,
    (C4_errorString_in_range (-11) (by decide) (by decide)).2.2⟩

/-- C5, counterexample: for the code 1, outside the range of the table,
`errorString` returns the text "unknown!" and not the text "unknown". -/
theorem C5_sentinel_text : errorString 1 = some "unknown!" ∧ errorString 1 ≠ some "unknown" := by
  decide

/-- C5, amended: `errorString` is total over all 32-bit signed error codes: it
never reads outside the 64-entry table, and for every `err` outside the range of
the table (`err > 0` or `err < -63`, the minimum `int` included) it returns the
sentinel "unknown!". -/
theorem C5_errorString_total (err : Int) (h : IsInt32 err) :
    errors.length = 64 ∧ errorString err ≠ none ∧
      ((0 < err ∨ err < -63) → errorString err = some "unknown!") := by
  exact ⟨rfl, errorString_ne_none err h, errorString_sentinel err h⟩

/-- C5, witness: the minimum `int` is answered by the sentinel. -/
theorem C5_errorString_total_witness :
    IsInt32 (-2147483648) ∧ errorString (-2147483648) ≠ none ∧
      errorString (-2147483648) = some "unknown!" :=
  ⟨by decide, (C5_errorString_total (-2147483648) (by decide)).2.1,
    (C5_errorString_total (-2147483648) (by decide)).2.2 (Or.inr (by decide))⟩

/-! ## Lemmas: the frame dispatch -/

theorem toU32_lt (a : Int) : toU32 a < 2 ^ 32 := by
  unfold toU32; omega

theorem toU32_eq_zero (a : Int) (h : IsInt32 a) : toU32 a = 0 ↔ a = 0 := by
  unfold IsInt32 at h
  unfold toU32
  omega

theorem toInt32_eq_zero (n : Nat) (h : n < 2 ^ 32) : toInt32 n = 0 ↔ n = 0 := by
  unfold toInt32
  split_ifs <;> omega

theorem isInt32_toInt32 (n : Nat) : IsInt32 (toInt32 n) := by
  unfold IsInt32 toInt32
  split_ifs <;> omega

theorem nat_lor_eq_zero (a b : Nat) : a ||| b = 0 ↔ a = 0 ∧ b = 0 := by
  constructor
  · intro h
    have hbit : ∀ i, (a.testBit i || b.testBit i) = false := by
      intro i
      rw [← Nat.testBit_or, h, Nat.zero_testBit]
    constructor
    · apply Nat.eq_of_testBit_eq
      intro i
      have := hbit i
      rw [Nat.zero_testBit]
      cases h1 : a.testBit i <;> simp_all
    · apply Nat.eq_of_testBit_eq
      intro i
      have := hbit i
      rw [Nat.zero_testBit]
      cases h1 : b.testBit i <;> simp_all
  · rintro ⟨rfl, rfl⟩
    rfl

theorem orInt32_eq_zero (a b : Int) (ha : IsInt32 a) (hb : IsInt32 b) :
    orInt32 a b = 0 ↔ a = 0 ∧ b = 0 := by
  unfold orInt32
  rw [toInt32_eq_zero _ (Nat.or_lt_two_pow (toU32_lt a) (toU32_lt b)), nat_lor_eq_zero,
    toU32_eq_zero a ha, toU32_eq_zero b hb]

theorem isInt32_orInt32 (a b : Int) : IsInt32 (orInt32 a b) :=
  isInt32_toInt32 _

/-- The accumulated binding status is zero exactly when the three codes are. -/
theorem setArg_err_eq_zero (e0 e1 e2 : Int) (h0 : IsInt32 e0) (h1 : IsInt32 e1)
    (h2 : IsInt32 e2) :
    orInt32 (orInt32 (orInt32 0 e0) e1) e2 = 0 ↔ e0 = 0 ∧ e1 = 0 ∧ e2 = 0 := by
  rw [orInt32_eq_zero _ _ (isInt32_orInt32 _ _) h2, orInt32_eq_zero _ _ (isInt32_orInt32 _ _) h1,
    orInt32_eq_zero _ _ (by decide) h0]
  tauto

theorem errorString_isSome (err : Int) : ∃ s, errorString err = some s := by
  unfold errorString
  simp only []
  split_ifs with h
  · have hlen : (negInt32 err).toNat < errors.length := by
      have : errors.length = 64 := rfl
      unfold SIZE at h
      omega
    exact ⟨errors[(negInt32 err).toNat], List.getElem?_eq_getElem hlen⟩
  · exact ⟨_, rfl⟩

theorem exitWithErrorString_status (c : CLContext) (ops : List Call) (msg : List Out) :
    (exitWithErrorString c ops msg).status = .exited 1 := by
  obtain ⟨s, hs⟩ := errorString_isSome c.err
  simp [exitWithErrorString, hs]

theorem exitWithErrorString_ops (c : CLContext) (ops : List Call) (msg : List Out) :
    (exitWithErrorString c ops msg).ops = ops := by
  obtain ⟨s, hs⟩ := errorString_isSome c.err
  simp [exitWithErrorString, hs]

theorem exitWithErrorString_ctx (c : CLContext) (ops : List Call) (msg : List Out) :
    (exitWithErrorString c ops msg).ctx = c := by
  obtain ⟨s, hs⟩ := errorString_isSome c.err
  simp [exitWithErrorString, hs]

theorem exitWithErrorString_out (c : CLContext) (ops : List Call) (msg : List Out) :
    ∃ s, errorString c.err = some s ∧
      (exitWithErrorString c ops msg).out = msg ++ [.str s, .endl] := by
  obtain ⟨s, hs⟩ := errorString_isSome c.err
  exact ⟨s, hs, by simp [exitWithErrorString, hs]⟩

/-- The shape of a dispatch that returns. -/
theorem executeKernel_returned (pc : Nat) (params : RenderParams) (env : DispatchEnv)
    (c : CLContext) (h : (executeKernel pc params env c).status = .returned) :
    ∃ global, globalRange pc params (env.max_gw_size / 32) = some global ∧
      (executeKernel pc params env c).ops =
        [ ⟨.glFinish, 0⟩, ⟨.enqueueAcquireGLObjects c.cl_PBO, env.acquireRet⟩,
          ⟨.setArg 0 c.cl_PBO, env.setArg0⟩, ⟨.setArg 1 c.sphereBuffer, env.setArg1⟩,
          ⟨.setArg 2 c.renderParams, env.setArg2⟩,
          ⟨.getInfoMaxWorkGroupSize c.device, env.getInfoRet⟩,
          ⟨.enqueueNDRangeKernel global (32, env.max_gw_size / 32), env.enqueueRet⟩,
          ⟨.finish, env.finishRet⟩, ⟨.enqueueReleaseGLObjects c.cl_PBO, env.releaseRet⟩ ] ∧
      orInt32 (orInt32 (orInt32 0 env.setArg0) env.setArg1) env.setArg2 = 0 ∧
      env.getInfoRet = 0 := by
  unfold executeKernel at h ⊢
  simp only [] at h ⊢
  split_ifs at h ⊢ with h1 h2
  · rw [exitWithErrorString_status] at h
    simp at h
  · simp only [ndRangeSizes] at h ⊢
    cases hg : globalRange pc params (env.max_gw_size / 32) with
    | none => simp [hg] at h
    | some g =>
      refine ⟨g, rfl, ?_, ?_, ?_⟩
      · simp
      · simpa using h1
      · simpa using h2

/-- A dispatch whose accumulated binding status is non-zero stops after the
third binding. -/
theorem executeKernel_binding_failed (pc : Nat) (params : RenderParams) (env : DispatchEnv)
    (c : CLContext)
    (h : orInt32 (orInt32 (orInt32 0 env.setArg0) env.setArg1) env.setArg2 ≠ 0) :
    executeKernel pc params env c =
      ⟨{ c with err := orInt32 (orInt32 (orInt32 0 env.setArg0) env.setArg1) env.setArg2 },
        [ ⟨.glFinish, 0⟩, ⟨.enqueueAcquireGLObjects c.cl_PBO, env.acquireRet⟩,
          ⟨.setArg 0 c.cl_PBO, env.setArg0⟩, ⟨.setArg 1 c.sphereBuffer, env.setArg1⟩,
          ⟨.setArg 2 c.renderParams, env.setArg2⟩ ],
        [ .str "Error: Failed to set kernel arguments! ",
          .int (orInt32 (orInt32 (orInt32 0 env.setArg0) env.setArg1) env.setArg2), .endl ],
        .exited 1⟩ := by
  unfold executeKernel
  simp only []
  rw [if_pos h]

/-- A dispatch whose bindings succeed performs the device-info query next. -/
theorem executeKernel_binding_ok (pc : Nat) (params : RenderParams) (env : DispatchEnv)
    (c : CLContext)
    (h : orInt32 (orInt32 (orInt32 0 env.setArg0) env.setArg1) env.setArg2 = 0) :
    ∃ rest, (executeKernel pc params env c).ops =
        [ ⟨.glFinish, 0⟩, ⟨.enqueueAcquireGLObjects c.cl_PBO, env.acquireRet⟩,
          ⟨.setArg 0 c.cl_PBO, env.setArg0⟩, ⟨.setArg 1 c.sphereBuffer, env.setArg1⟩,
          ⟨.setArg 2 c.renderParams, env.setArg2⟩,
          ⟨.getInfoMaxWorkGroupSize c.device, env.getInfoRet⟩ ] ++ rest := by
  unfold executeKernel
  simp only []
  rw [if_neg (by simpa using h)]
  split_ifs with h2
  · rw [exitWithErrorString_ops]; exact ⟨[], by simp⟩
  · split
    · exact ⟨[], by simp⟩
    · exact ⟨_, by simp only [List.cons_append, List.nil_append]; rfl⟩

/-- The kernel enqueue of a dispatch that returns uses the global range
`(globalWidth width, h)` with `globalHeight pc height max_gw_size = some h` and
the local range `ndRangeSizes max_gw_size`. -/
theorem executeKernel_enqueue_ranges (pc : Nat) (params : RenderParams) (env : DispatchEnv)
    (c : CLContext) (h : (executeKernel pc params env c).status = .returned) :
    ∃ gh, globalHeight pc params.height env.max_gw_size = some gh ∧
      (⟨.enqueueNDRangeKernel (globalWidth params.width, gh) (ndRangeSizes env.max_gw_size),
        env.enqueueRet⟩ : Call) ∈ (executeKernel pc params env c).ops := by
  obtain ⟨g, hg, hops, _, _⟩ := executeKernel_returned pc params env c h
  unfold globalRange at hg
  unfold globalHeight ndRangeSizes
  simp only []
  cases hh : wgMutipleHeight pc params.height (env.max_gw_size / 32) with
  | none => rw [hh] at hg; simp at hg
  | some v =>
    rw [hh] at hg
    simp only [Option.map_some', Option.some.injEq] at hg
    refine ⟨toSizeT v, rfl, ?_⟩
    rw [hops, ← hg]
    simp

/-! ## Sequencing of device calls (C6, C7, C8) -/

/-- C6, counterexample: a frame dispatch whose first argument binding fails
(code -38) terminates the process after one acquire and without any release of
the shared image buffer. -/
theorem C6_exit_without_release :
    (executeKernel 24 sampleParams { okDispatch with setArg0 := -38 } sampleCtx).status
        = .exited 1 ∧
      (executeKernel 24 sampleParams { okDispatch with setArg0 := -38 } sampleCtx).calls.countP
        DevOp.isAcquire = 1 ∧
      (executeKernel 24 sampleParams { okDispatch with setArg0 := -38 } sampleCtx).calls.countP
        DevOp.isRelease = 0 := by
  decide

/-- C6, amended: in every frame dispatch that returns (every run of
`executeKernel` that does not terminate the process), acquire and release of the
shared image buffer are paired: the sequence of device operations is the
display-pipeline flush, the acquire, the three argument bindings, the
device-info query, the kernel enqueue, the blocking queue finish and the
release; it contains exactly one acquire and exactly one release of the buffer. -/
theorem C6_acquire_release_paired (pc : Nat) (params : RenderParams) (env : DispatchEnv)
    (c : CLContext) (h : (executeKernel pc params env c).status = .returned) :
    (∃ global, (executeKernel pc params env c).calls =
        [ .glFinish, .enqueueAcquireGLObjects c.cl_PBO, .setArg 0 c.cl_PBO,
          .setArg 1 c.sphereBuffer, .setArg 2 c.renderParams,
          .getInfoMaxWorkGroupSize c.device,
          .enqueueNDRangeKernel global (32, env.max_gw_size / 32), .finish,
          .enqueueReleaseGLObjects c.cl_PBO ]) ∧
      (executeKernel pc params env c).calls.countP DevOp.isAcquire = 1 ∧
      (executeKernel pc params env c).calls.countP DevOp.isRelease = 1 := by
  obtain ⟨g, _, hops, _, _⟩ := executeKernel_returned pc params env c h
  have hcalls : (executeKernel pc params env c).calls =
      [ .glFinish, .enqueueAcquireGLObjects c.cl_PBO, .setArg 0 c.cl_PBO,
        .setArg 1 c.sphereBuffer, .setArg 2 c.renderParams,
        .getInfoMaxWorkGroupSize c.device,
        .enqueueNDRangeKernel g (32, env.max_gw_size / 32), .finish,
        .enqueueReleaseGLObjects c.cl_PBO ] := by
    unfold Run.calls; rw [hops]; rfl
  refine ⟨⟨g, hcalls⟩, ?_, ?_⟩
  · rw [hcalls]; rfl
  · rw [hcalls]; rfl

/-- C6, witness: the dispatch of an 800 x 600 frame in which every call succeeds. -/
theorem C6_acquire_release_paired_witness :
    (executeKernel 24 sampleParams okDispatch sampleCtx).status = .returned ∧
      (executeKernel 24 sampleParams okDispatch sampleCtx).calls =
        [ .glFinish, .enqueueAcquireGLObjects 13, .setArg 0 13, .setArg 1 14, .setArg 2 15,
          .getInfoMaxWorkGroupSize 2, .enqueueNDRangeKernel (800, 600) (32, 8), .finish,
          .enqueueReleaseGLObjects 13 ] ∧
      (executeKernel 24 sampleParams okDispatch sampleCtx).calls.countP DevOp.isRelease = 1 :=
  ⟨by decide, by decide,
    (C6_acquire_release_paired 24 sampleParams okDispatch sampleCtx (by decide)).2.2⟩

/-- C7: calling `createPBO` twice in succession, from a context with no bound
wrapper and with both wrapper creations succeeding, performs exactly the calls
create (read-write, first handle), release of the first wrapper, create
(read-write, second handle): the first wrapper is released exactly once, nothing
else is released, the release precedes the second creation, and the second
wrapper is the bound one afterwards. -/
theorem C7_createPBO_twice (gl1 gl2 : Nat) (w1 w2 : Nat × Int) (c : CLContext)
    (hc : c.cl_PBO = 0) (h1 : w1.1 ≠ 0) (h2 : w2.1 ≠ 0) :
    ((createPBO gl1 w1 c).andThen (createPBO gl2 w2)).calls =
        [ .createFromGLBuffer c.context .CL_MEM_READ_WRITE gl1, .releaseMemObject w1.1,
          .createFromGLBuffer c.context .CL_MEM_READ_WRITE gl2 ] ∧
      ((createPBO gl1 w1 c).andThen (createPBO gl2 w2)).calls.filter DevOp.isReleaseMem =
        [.releaseMemObject w1.1] ∧
      ((createPBO gl1 w1 c).andThen (createPBO gl2 w2)).ctx.cl_PBO = w2.1 ∧
      ((createPBO gl1 w1 c).andThen (createPBO gl2 w2)).status = .returned := by
  have hr : (createPBO gl1 w1 c).andThen (createPBO gl2 w2) =
      ⟨{ c with cl_PBO := w2.1, err := w2.2 },
        [ ⟨.createFromGLBuffer c.context .CL_MEM_READ_WRITE gl1, w1.2⟩,
          ⟨.releaseMemObject w1.1, 0⟩,
          ⟨.createFromGLBuffer c.context .CL_MEM_READ_WRITE gl2, w2.2⟩ ],
        [ .str "Created CL-PBO at ", .ptr w1.1, .endl, .str "Removing old CL-PBO", .endl,
          .str "Created CL-PBO at ", .ptr w2.1, .endl ], .returned⟩ := by
    simp [createPBO, Run.andThen, hc, h1, h2]
  rw [hr]
  exact ⟨rfl, rfl, rfl, rfl⟩

/-- C7, witness: two successive bindings with wrapper handles 21 and 22. -/
theorem C7_createPBO_twice_witness :
    ({ sampleCtx with cl_PBO := 0 } : CLContext).cl_PBO = 0 ∧ (21, (0 : Int)).1 ≠ 0 ∧
      (22, (0 : Int)).1 ≠ 0 ∧
      ((createPBO 7 (21, 0) { sampleCtx with cl_PBO := 0 }).andThen (createPBO 8 (22, 0))).calls =
        [ .createFromGLBuffer 10 .CL_MEM_READ_WRITE 7, .releaseMemObject 21,
          .createFromGLBuffer 10 .CL_MEM_READ_WRITE 8 ] :=
  ⟨rfl, by decide, by decide,
    (C7_createPBO_twice 7 8 (21, 0) (22, 0) { sampleCtx with cl_PBO := 0 } rfl (by decide)
      (by decide)).1⟩

/-- C8: `executeKernel` binds the kernel arguments in the fixed order 0 = shared
image buffer, 1 = scene buffer, 2 = render-parameters buffer, right after the
flush and the acquire, and for every triple of status codes returned by the
three bindings it terminates the process at the binding step (exit with no
device call after the third binding) if and only if at least one of the three
codes is not `CL_SUCCESS`; the accumulated bitwise OR is zero exactly when all
three codes are zero. -/
theorem C8_setArg_order_and_exit (pc : Nat) (params : RenderParams) (env : DispatchEnv)
    (c : CLContext) (h0 : IsInt32 env.setArg0) (h1 : IsInt32 env.setArg1)
    (h2 : IsInt32 env.setArg2) :
    (executeKernel pc params env c).calls.take 5 =
        [ .glFinish, .enqueueAcquireGLObjects c.cl_PBO, .setArg 0 c.cl_PBO,
          .setArg 1 c.sphereBuffer, .setArg 2 c.renderParams ] ∧
      (((executeKernel pc params env c).status = .exited 1 ∧
          (executeKernel pc params env c).calls.length = 5) ↔
        ¬ (env.setArg0 = 0 ∧ env.setArg1 = 0 ∧ env.setArg2 = 0)) ∧
      (orInt32 (orInt32 (orInt32 0 env.setArg0) env.setArg1) env.setArg2 = 0 ↔
        (env.setArg0 = 0 ∧ env.setArg1 = 0 ∧ env.setArg2 = 0)) := by
  have hor := setArg_err_eq_zero env.setArg0 env.setArg1 env.setArg2 h0 h1 h2
  refine ⟨?_, ?_, hor⟩
  · by_cases hz : orInt32 (orInt32 (orInt32 0 env.setArg0) env.setArg1) env.setArg2 = 0
    · obtain ⟨rest, hrest⟩ := executeKernel_binding_ok pc params env c hz
      unfold Run.calls; rw [hrest]; rfl
    · rw [executeKernel_binding_failed pc params env c hz]; rfl
  · by_cases hz : orInt32 (orInt32 (orInt32 0 env.setArg0) env.setArg1) env.setArg2 = 0
    · obtain ⟨rest, hrest⟩ := executeKernel_binding_ok pc params env c hz
      have hlen : (executeKernel pc params env c).calls.length ≠ 5 := by
        unfold Run.calls; rw [hrest]; simp
      constructor
      · rintro ⟨_, h5⟩; exact absurd h5 hlen
      · intro hne; exact absurd (hor.mp hz) hne
    · rw [executeKernel_binding_failed pc params env c hz]
      constructor
      · intro _ hall; exact hz (hor.mpr hall)
      · intro _; exact ⟨rfl, rfl⟩

/-- C8, witness: the second binding fails with code -51, the process exits at
the binding step. -/
theorem C8_setArg_order_and_exit_witness :
    IsInt32 (0 : Int) ∧ IsInt32 (-51 : Int) ∧
      (executeKernel 24 sampleParams { okDispatch with setArg1 := -51 } sampleCtx).status
        = .exited 1 ∧
      (executeKernel 24 sampleParams { okDispatch with setArg1 := -51 } sampleCtx).calls.length
        = 5 :=
  ⟨by decide, by decide,
    ((C8_setArg_order_and_exit 24 sampleParams { okDispatch with setArg1 := -51 } sampleCtx
      (by decide) (by decide) (by decide)).2.1.mpr (by decide))⟩



/-! ## Lemmas: fail-fast runs -/

theorem pairwise_of_no_failed (l : List Call) (h : ∀ a ∈ l, ¬ a.failed) :
    l.Pairwise fun a b => a.failed → b.op.followsFailure = true := by
  induction l with
  | nil => exact List.Pairwise.nil
  | cons x xs ih =>
    refine List.Pairwise.cons ?_ (ih fun a ha => h a (List.mem_cons_of_mem _ ha))
    intro b _ hx
    exact absurd hx (h x (List.mem_cons_self _ _))

theorem failFast_of_no_failed (r : Run) (h : ∀ a ∈ r.ops, ¬ a.failed) : r.failFast :=
  ⟨fun a ha hf => absurd hf (h a ha), pairwise_of_no_failed r.ops h⟩

theorem andThen_failFast (r : Run) (f : CLContext → Run) (hr : r.failFast)
    (hf : ∀ c, (f c).failFast) : (r.andThen f).failFast := by
  unfold Run.andThen
  cases hs : r.status with
  | returned =>
    have hno : ∀ a ∈ r.ops, ¬ a.failed := by
      intro a ha hfail
      have := hr.1 a ha hfail
      rw [hs] at this
      exact Status.noConfusion this
    simp only []
    refine ⟨?_, ?_⟩
    · intro a ha hfail
      rcases List.mem_append.mp ha with h1 | h2
      · exact absurd hfail (hno a h1)
      · exact (hf r.ctx).1 a h2 hfail
    · refine List.pairwise_append.mpr ⟨hr.2, (hf r.ctx).2, ?_⟩
      intro a ha b _ hfail
      exact absurd hfail (hno a ha)
  | exited code => simpa [hs] using hr
  | undefined => simpa [hs] using hr

theorem printPlatforms_unchecked (ps : List Platform) :
    ∀ i j, ∀ a ∈ (printPlatforms i j ps).1, ¬ a.failed := by
  induction ps with
  | nil => intro i j a ha; simp [printPlatforms] at ha
  | cons p ps ih =>
    intro i j a ha
    simp only [printPlatforms, List.mem_cons] at ha
    rcases ha with rfl | h
    · simp [Call.failed, DevOp.checked]
    · exact ih _ _ a h

theorem printDevices_failFast (env : InitEnv) (c : CLContext) :
    (printDevices env c).failFast := by
  apply failFast_of_no_failed
  intro a ha
  simp only [printDevices, List.mem_cons] at ha
  rcases ha with rfl | h
  · simp [Call.failed, DevOp.checked]
  · exact printPlatforms_unchecked _ _ _ a h

theorem selectDevices_failFast (env : InitEnv) (c : CLContext) :
    (selectDevices env c).failFast := by
  apply failFast_of_no_failed
  intro a ha
  unfold selectDevices at ha
  split at ha
  · simp at ha; subst ha; simp [Call.failed, DevOp.checked]
  · split at ha <;>
    · simp at ha
      rcases ha with rfl | rfl <;> simp [Call.failed, DevOp.checked]

theorem createSharedContext_failFast (apple : Bool) (env : InitEnv) (c : CLContext) :
    (createSharedContext apple env c).failFast := by
  unfold createSharedContext
  simp only []
  by_cases h : env.context.2 ≠ 0
  · rw [if_pos h]
    refine ⟨fun a _ _ => exitWithErrorString_status _ _ _, ?_⟩
    rw [exitWithErrorString_ops]; simp
  · rw [if_neg h]
    apply failFast_of_no_failed
    intro a ha
    have hz : env.context.2 = 0 := by simpa using h
    split at ha <;>
    · simp at ha; subst ha; simp [Call.failed, hz]

theorem createCommandQueue_failFast (env : InitEnv) (c : CLContext) :
    (createCommandQueue env c).failFast := by
  unfold createCommandQueue
  simp only []
  split_ifs with h
  · refine ⟨fun a _ _ => exitWithErrorString_status _ _ _, ?_⟩
    rw [exitWithErrorString_ops]; simp
  · apply failFast_of_no_failed
    intro a ha
    have hz : env.cmdQueue.2 = 0 := by simpa using h
    simp at ha; subst ha; simp [Call.failed, hz]

theorem createProgram_failFast (env : InitEnv) (c : CLContext) :
    (createProgram env c).failFast := by
  unfold createProgram
  simp only []
  split_ifs with h
  · refine ⟨fun a _ _ => exitWithErrorString_status _ _ _, ?_⟩
    rw [exitWithErrorString_ops]; simp
  · apply failFast_of_no_failed
    intro a ha
    have hz : env.programRet = 0 := by simpa using h
    simp at ha; subst ha; simp [Call.failed, hz]

theorem buildProgram_failFast (env : InitEnv) (c : CLContext) :
    (buildProgram env c).failFast := by
  unfold buildProgram
  simp only []
  split_ifs with h
  · refine ⟨fun a _ _ => rfl, ?_⟩
    simp [DevOp.followsFailure]
  · apply failFast_of_no_failed
    intro a ha
    have hz : env.buildRet = 0 := by simpa using h
    simp at ha
    rcases ha with rfl | rfl <;> simp [Call.failed, hz, DevOp.checked]

theorem createKernel_failFast (env : InitEnv) (c : CLContext) :
    (createKernel env c).failFast := by
  unfold createKernel
  simp only []
  split_ifs with h
  · refine ⟨fun a _ _ => exitWithErrorString_status _ _ _, ?_⟩
    rw [exitWithErrorString_ops]; simp
  · apply failFast_of_no_failed
    intro a ha
    have hz : env.kernel.2 = 0 := by simpa using h
    simp at ha; subst ha; simp [Call.failed, hz]

theorem createPBO_failFast (gl_PBO : Nat) (created : Nat × Int) (c : CLContext) :
    (createPBO gl_PBO created c).failFast := by
  apply failFast_of_no_failed
  intro a ha
  unfold createPBO at ha
  simp only [] at ha
  split_ifs at ha <;>
  · simp at ha
    rcases ha with rfl | rfl <;> simp [Call.failed, DevOp.checked]

theorem setupScene_failFast (env : SceneEnv) (c : CLContext) : (setupScene env c).failFast := by
  unfold setupScene
  simp only []
  by_cases h : env.buffer.2 ≠ 0
  · rw [if_pos h]
    refine ⟨fun a _ _ => exitWithErrorString_status _ _ _, ?_⟩
    rw [exitWithErrorString_ops]; simp
  · rw [if_neg h]
    have hz : env.buffer.2 = 0 := by simpa using h
    by_cases h2 : env.writeRet ≠ 0
    · rw [if_pos h2]
      obtain ⟨s, hs⟩ := errorString_isSome env.writeRet
      simp only [hs]
      refine ⟨fun a _ _ => rfl, ?_⟩
      simp [Call.failed, hz]
    · rw [if_neg h2]
      have hz2 : env.writeRet = 0 := by simpa using h2
      apply failFast_of_no_failed
      intro a ha
      simp at ha
      rcases ha with rfl | rfl <;> simp [Call.failed, hz, hz2]

theorem setupParams_failFast (buffer : Nat × Int) (c : CLContext) :
    (setupParams buffer c).failFast := by
  unfold setupParams
  simp only []
  by_cases h : buffer.2 ≠ 0
  · rw [if_pos h]
    refine ⟨fun a _ _ => exitWithErrorString_status _ _ _, ?_⟩
    rw [exitWithErrorString_ops]; simp
  · rw [if_neg h]
    have hz : buffer.2 = 0 := by simpa using h
    apply failFast_of_no_failed
    intro a ha
    simp at ha; subst ha; simp [Call.failed, hz]

theorem updateParams_failFast (params : RenderParams) (writeRet : Int) (c : CLContext) :
    (updateParams params writeRet c).failFast := by
  unfold updateParams
  simp only []
  by_cases h : writeRet ≠ 0
  · rw [if_pos h]
    refine ⟨fun a _ _ => exitWithErrorString_status _ _ _, ?_⟩
    rw [exitWithErrorString_ops]; simp
  · rw [if_neg h]
    have hz : writeRet = 0 := by simpa using h
    apply failFast_of_no_failed
    intro a ha
    simp at ha; subst ha; simp [Call.failed, hz]

theorem executeKernel_failFast (pc : Nat) (params : RenderParams) (env : DispatchEnv)
    (c : CLContext) (h0 : IsInt32 env.setArg0) (h1 : IsInt32 env.setArg1)
    (h2 : IsInt32 env.setArg2) : (executeKernel pc params env c).failFast := by
  have hor := setArg_err_eq_zero env.setArg0 env.setArg1 env.setArg2 h0 h1 h2
  by_cases hz : orInt32 (orInt32 (orInt32 0 env.setArg0) env.setArg1) env.setArg2 = 0
  · obtain ⟨z0, z1, z2⟩ := hor.mp hz
    unfold executeKernel
    simp only []
    rw [if_neg (by simpa using hz)]
    by_cases hi : env.getInfoRet ≠ 0
    · rw [if_pos hi]
      refine ⟨fun a _ _ => exitWithErrorString_status _ _ _, ?_⟩
      rw [exitWithErrorString_ops]
      simp [Call.failed, z0, z1, z2, DevOp.checked]
    · rw [if_neg hi]
      have hiz : env.getInfoRet = 0 := by simpa using hi
      apply failFast_of_no_failed
      intro a ha
      split at ha
      · simp at ha
        rcases ha with rfl | rfl | rfl | rfl | rfl | rfl <;>
          simp [Call.failed, z0, z1, z2, hiz, DevOp.checked]
      · simp at ha
        rcases ha with rfl | rfl | rfl | rfl | rfl | rfl | rfl | rfl | rfl <;>
          simp [Call.failed, z0, z1, z2, hiz, DevOp.checked]
  · rw [executeKernel_binding_failed pc params env c hz]
    refine ⟨fun a _ _ => rfl, ?_⟩
    simp [Call.failed, DevOp.checked, DevOp.followsFailure]

theorem construct_failFast (apple : Bool) (gl_PBO : Nat) (env : InitEnv) (c : CLContext) :
    (construct apple gl_PBO env c).failFast := by
  unfold construct
  refine andThen_failFast _ _ ?_ (setupParams_failFast _)
  refine andThen_failFast _ _ ?_ (setupScene_failFast _)
  refine andThen_failFast _ _ ?_ (createPBO_failFast _ _)
  refine andThen_failFast _ _ ?_ (createKernel_failFast _)
  refine andThen_failFast _ _ ?_ (buildProgram_failFast _)
  refine andThen_failFast _ _ ?_ (createProgram_failFast _)
  refine andThen_failFast _ _ ?_ (createCommandQueue_failFast _)
  refine andThen_failFast _ _ ?_ (createSharedContext_failFast _ _)
  exact andThen_failFast _ _ (printDevices_failFast _ _) (selectDevices_failFast _)

/-! ## Lemmas: the text printed on a fatal exit -/

theorem exitWithErrorString_prints (c : CLContext) (ops : List Call) (msg : List Out) :
    (exitWithErrorString c ops msg).printsErrorString := by
  obtain ⟨s, hs, hout⟩ := exitWithErrorString_out c ops msg
  refine ⟨s, ?_, ?_⟩
  · rw [exitWithErrorString_ctx]; exact hs
  · rw [hout]; simp

theorem fatalReport_of_not_exited (r : Run) (log : String) (h : r.status ≠ .exited 1) :
    r.fatalReport log :=
  fun he => absurd he h

theorem andThen_fatalReport (r : Run) (f : CLContext → Run) (log : String)
    (hr : r.fatalReport log) (hf : ∀ c, (f c).fatalReport log) :
    (r.andThen f).fatalReport log := by
  unfold Run.andThen
  cases hs : r.status with
  | returned =>
    simp only []
    intro he
    rcases hf r.ctx he with ⟨s, h1, h2⟩ | ⟨⟨pre, d, h⟩, ⟨o, ho⟩⟩
    · exact Or.inl ⟨s, h1, List.mem_append_right _ h2⟩
    · refine Or.inr ⟨⟨r.calls ++ pre, d, ?_⟩, ⟨r.out ++ o, ?_⟩⟩
      · unfold Run.calls at h ⊢
        simp only [List.map_append, h, List.append_assoc]
      · simp only [ho, List.append_assoc]
  | exited code => simpa [hs] using hr
  | undefined => simpa [hs] using hr

theorem selectDevices_fatalReport (env : InitEnv) (log : String) (c : CLContext) :
    (selectDevices env c).fatalReport log := by
  apply fatalReport_of_not_exited
  unfold selectDevices
  split
  · simp
  · split <;> simp

theorem createSharedContext_fatalReport (apple : Bool) (env : InitEnv) (log : String)
    (c : CLContext) : (createSharedContext apple env c).fatalReport log := by
  unfold createSharedContext
  simp only []
  by_cases h : env.context.2 ≠ 0
  · rw [if_pos h]; exact fun _ => Or.inl (exitWithErrorString_prints _ _ _)
  · rw [if_neg h]
    apply fatalReport_of_not_exited
    split <;> simp

theorem createCommandQueue_fatalReport (env : InitEnv) (log : String) (c : CLContext) :
    (createCommandQueue env c).fatalReport log := by
  unfold createCommandQueue
  simp only []
  by_cases h : env.cmdQueue.2 ≠ 0
  · rw [if_pos h]; exact fun _ => Or.inl (exitWithErrorString_prints _ _ _)
  · rw [if_neg h]; exact fatalReport_of_not_exited _ _ (by simp)

theorem createProgram_fatalReport (env : InitEnv) (log : String) (c : CLContext) :
    (createProgram env c).fatalReport log := by
  unfold createProgram
  simp only []
  by_cases h : env.programRet ≠ 0
  · rw [if_pos h]; exact fun _ => Or.inl (exitWithErrorString_prints _ _ _)
  · rw [if_neg h]; exact fatalReport_of_not_exited _ _ (by simp)

theorem buildProgram_fatalReport (env : InitEnv) (c : CLContext) :
    (buildProgram env c).fatalReport env.buildLog := by
  unfold buildProgram
  simp only []
  by_cases h : env.buildRet ≠ 0
  · rw [if_pos h]
    exact fun _ => Or.inr
      ⟨⟨[.programBuild c.clDevices "-I./src -DGPU"], c.device, rfl⟩, ⟨[], rfl⟩⟩
  · rw [if_neg h]; exact fatalReport_of_not_exited _ _ (by simp)

theorem createKernel_fatalReport (env : InitEnv) (log : String) (c : CLContext) :
    (createKernel env c).fatalReport log := by
  unfold createKernel
  simp only []
  by_cases h : env.kernel.2 ≠ 0
  · rw [if_pos h]; exact fun _ => Or.inl (exitWithErrorString_prints _ _ _)
  · rw [if_neg h]; exact fatalReport_of_not_exited _ _ (by simp)

theorem createPBO_fatalReport (gl_PBO : Nat) (created : Nat × Int) (log : String)
    (c : CLContext) : (createPBO gl_PBO created c).fatalReport log := by
  apply fatalReport_of_not_exited
  unfold createPBO
  simp only []
  split_ifs <;> simp

theorem setupScene_exit_prints (env : SceneEnv) (c : CLContext)
    (he : (setupScene env c).status = .exited 1) : (setupScene env c).printsErrorString := by
  unfold setupScene at he ⊢
  simp only [] at he ⊢
  by_cases h : env.buffer.2 ≠ 0
  · rw [if_pos h]; exact exitWithErrorString_prints _ _ _
  · rw [if_neg h] at he ⊢
    by_cases h2 : env.writeRet ≠ 0
    · rw [if_pos h2]
      obtain ⟨s, hs⟩ := errorString_isSome env.writeRet
      simp only [hs]
      exact ⟨s, hs, by simp⟩
    · rw [if_neg h2] at he
      simp at he

theorem setupParams_exit_prints (buffer : Nat × Int) (c : CLContext)
    (he : (setupParams buffer c).status = .exited 1) :
    (setupParams buffer c).printsErrorString := by
  unfold setupParams at he ⊢
  simp only [] at he ⊢
  by_cases h : buffer.2 ≠ 0
  · rw [if_pos h]; exact exitWithErrorString_prints _ _ _
  · rw [if_neg h] at he
    simp at he

theorem updateParams_exit_prints (params : RenderParams) (writeRet : Int) (c : CLContext)
    (he : (updateParams params writeRet c).status = .exited 1) :
    (updateParams params writeRet c).printsErrorString := by
  unfold updateParams at he ⊢
  simp only [] at he ⊢
  by_cases h : writeRet ≠ 0
  · rw [if_pos h]; exact exitWithErrorString_prints _ _ _
  · rw [if_neg h] at he
    simp at he

theorem executeKernel_exit_prints (pc : Nat) (params : RenderParams) (env : DispatchEnv)
    (c : CLContext) (he : (executeKernel pc params env c).status = .exited 1) :
    (executeKernel pc params env c).printsErrorString ∨
      ((executeKernel pc params env c).calls =
          [ .glFinish, .enqueueAcquireGLObjects c.cl_PBO, .setArg 0 c.cl_PBO,
            .setArg 1 c.sphereBuffer, .setArg 2 c.renderParams ] ∧
        (executeKernel pc params env c).out =
          [ .str "Error: Failed to set kernel arguments! ",
            .int (executeKernel pc params env c).ctx.err, .endl ]) := by
  by_cases hz : orInt32 (orInt32 (orInt32 0 env.setArg0) env.setArg1) env.setArg2 = 0
  · left
    unfold executeKernel at he ⊢
    simp only [] at he ⊢
    rw [if_neg (by simpa using hz)] at he ⊢
    by_cases hi : env.getInfoRet ≠ 0
    · rw [if_pos hi]; exact exitWithErrorString_prints _ _ _
    · rw [if_neg hi] at he
      split at he <;> simp at he
  · right
    rw [executeKernel_binding_failed pc params env c hz]
    exact ⟨rfl, rfl⟩

theorem construct_fatalReport (apple : Bool) (gl_PBO : Nat) (env : InitEnv) (c : CLContext) :
    (construct apple gl_PBO env c).fatalReport env.buildLog := by
  unfold construct
  refine andThen_fatalReport _ _ _ ?_ (fun c he => Or.inl (setupParams_exit_prints _ c he))
  refine andThen_fatalReport _ _ _ ?_ (fun c he => Or.inl (setupScene_exit_prints _ c he))
  refine andThen_fatalReport _ _ _ ?_ (createPBO_fatalReport _ _ _)
  refine andThen_fatalReport _ _ _ ?_ (createKernel_fatalReport _ _)
  refine andThen_fatalReport _ _ _ ?_ (buildProgram_fatalReport _)
  refine andThen_fatalReport _ _ _ ?_ (createProgram_fatalReport _ _)
  refine andThen_fatalReport _ _ _ ?_ (createCommandQueue_fatalReport _ _)
  refine andThen_fatalReport _ _ _ ?_ (createSharedContext_fatalReport _ _ _)
  exact andThen_fatalReport _ _ _ (fatalReport_of_not_exited _ _ (by simp [printDevices]))
    (selectDevices_fatalReport _ _)

/-- The status codes of acquire, kernel enqueue, finish and release do not
influence a dispatch: with any other values the run ends the same way, after
the same driver calls and with the same output. -/
theorem executeKernel_ignores_unchecked (pc : Nat) (params : RenderParams) (env : DispatchEnv)
    (c : CLContext) (a e f r : Int) :
    (executeKernel pc params
        { env with acquireRet := a, enqueueRet := e, finishRet := f, releaseRet := r } c).status
        = (executeKernel pc params env c).status ∧
      (executeKernel pc params
        { env with acquireRet := a, enqueueRet := e, finishRet := f, releaseRet := r } c).calls
        = (executeKernel pc params env c).calls ∧
      (executeKernel pc params
        { env with acquireRet := a, enqueueRet := e, finishRet := f, releaseRet := r } c).out
        = (executeKernel pc params env c).out := by
  unfold executeKernel Run.calls
  simp only []
  split_ifs with h1 h2
  · exact ⟨rfl, rfl, rfl⟩
  · simp only [exitWithErrorString_status, exitWithErrorString_ops]
    obtain ⟨s, hs⟩ := errorString_isSome env.getInfoRet
    simp [exitWithErrorString, hs]
  · cases globalRange pc params (ndRangeSizes env.max_gw_size).2 <;> simp

/-! ## Fatal errors (C9, C10) -/

/-- C9, counterexample: the kernel enqueue of a frame dispatch fails with code
-54, and the dispatch goes on with the queue finish and the release and returns;
the process is not terminated. -/
theorem C9_enqueue_failure_ignored :
    (executeKernel 24 sampleParams { okDispatch with enqueueRet := -54 } sampleCtx).status
        = .returned ∧
      (executeKernel 24 sampleParams { okDispatch with enqueueRet := -54 } sampleCtx).ops.drop 6 =
        [ ⟨.enqueueNDRangeKernel (800, 600) (32, 8), -54⟩, ⟨.finish, 0⟩,
          ⟨.enqueueReleaseGLObjects 13, 0⟩ ] := by
  decide

/-- C9, amended: every failure of an inspected device-facing step is fatal. The
inspected steps are context creation, command-queue creation, program creation,
program build, kernel creation, buffer allocation and blocking buffer write
(`setupScene`, `setupParams`, `updateParams`), and in a frame dispatch the
argument bindings and the device-info query. In every run of the constructor,
of `setupScene`, `setupParams`, `updateParams` and `executeKernel`, a non-success
result of such a step terminates the process with `exit(1)`, and the only driver
calls made after the failed call are the remaining argument bindings and the
build-log query. The results of acquire, kernel enqueue, finish and release are
not inspected: whatever they are, the dispatch ends the same way after the same
calls. -/
theorem C9_checked_failures_fatal (apple : Bool) (gl_PBO : Nat) (env : InitEnv) (c : CLContext)
    (params : RenderParams) (writeRet : Int) (pc : Nat) (denv : DispatchEnv)
    (h0 : IsInt32 denv.setArg0) (h1 : IsInt32 denv.setArg1) (h2 : IsInt32 denv.setArg2) :
    (construct apple gl_PBO env c).failFast ∧ (setupScene env.scene c).failFast ∧
      (setupParams env.params c).failFast ∧ (updateParams params writeRet c).failFast ∧
      (executeKernel pc params denv c).failFast ∧
      ∀ a e f r : Int,
        (executeKernel pc params
            { denv with acquireRet := a, enqueueRet := e, finishRet := f, releaseRet := r }
            c).status = (executeKernel pc params denv c).status ∧
          (executeKernel pc params
            { denv with acquireRet := a, enqueueRet := e, finishRet := f, releaseRet := r }
            c).calls = (executeKernel pc params denv c).calls :=
  ⟨construct_failFast apple gl_PBO env c, setupScene_failFast _ c, setupParams_failFast _ c,
    updateParams_failFast params writeRet c, executeKernel_failFast pc params denv c h0 h1 h2,
    fun a e f r =>
      ⟨(executeKernel_ignores_unchecked pc params denv c a e f r).1,
        (executeKernel_ignores_unchecked pc params denv c a e f r).2.1⟩⟩

/-- C9, witness: a dispatch whose device-info query fails with code -30 ends in
`exit(1)`, and a construction whose command-queue creation fails with code -34
ends in `exit(1)`. -/
theorem C9_checked_failures_fatal_witness :
    IsInt32 (0 : Int) ∧
      (executeKernel 24 sampleParams { okDispatch with getInfoRet := -30 } freshCtx).status
        = .exited 1 ∧
      (construct false 7 { okInit with cmdQueue := (0, -34) } freshCtx).status = .exited 1 :=
  ⟨by decide,
    (C9_checked_failures_fatal false 7 { okInit with cmdQueue := (0, -34) } freshCtx sampleParams 0
      24 { okDispatch with getInfoRet := -30 } (by decide) (by decide) (by decide)).2.2.2.2.1.1
      ⟨.getInfoMaxWorkGroupSize 0, -30⟩ (by decide) ⟨rfl, by decide⟩,
    (C9_checked_failures_fatal false 7 { okInit with cmdQueue := (0, -34) } freshCtx sampleParams 0
      24 { okDispatch with getInfoRet := -30 } (by decide) (by decide) (by decide)).1.1
      ⟨.createCommandQueue 10 2, -34⟩ (by decide) ⟨rfl, by decide⟩⟩

/-- C10, counterexample: two fatal paths whose output does not contain the text
of `errorString()`. A frame dispatch whose third argument binding fails with
code -51 prints the message and the number only; a construction whose program
build fails with code -11 prints the message and the build log only. -/
theorem C10_exit_without_errorString :
    ((executeKernel 24 sampleParams { okDispatch with setArg2 := -51 } sampleCtx).status
        = .exited 1 ∧
      errorString
        (executeKernel 24 sampleParams { okDispatch with setArg2 := -51 } sampleCtx).ctx.err
        = some "CL_INVALID_ARG_SIZE" ∧
      (executeKernel 24 sampleParams { okDispatch with setArg2 := -51 } sampleCtx).out =
        [.str "Error: Failed to set kernel arguments! ", .int (-51), .endl]) ∧
    ((construct false 7 { okInit with buildRet := -11, buildLog := "kernel.cl:1: error" }
        freshCtx).status = .exited 1 ∧
      errorString (construct false 7
        { okInit with buildRet := -11, buildLog := "kernel.cl:1: error" } freshCtx).ctx.err
        = some "CL_BUILD_PROGRAM_FAILURE" ∧
      Out.str "CL_BUILD_PROGRAM_FAILURE" ∉ (construct false 7
        { okInit with buildRet := -11, buildLog := "kernel.cl:1: error" } freshCtx).out ∧
      (construct false 7 { okInit with buildRet := -11, buildLog := "kernel.cl:1: error" }
        freshCtx).out.drop 113 = buildFailureMessage "kernel.cl:1: error") := by
  decide

/-- C10, amended: on every path of `CLContext` (constructor, `setupScene`,
`setupParams`, `updateParams`, `executeKernel`) that terminates the process,
except the build failure in the constructor (which prints the build log) and
the argument-binding failure in `executeKernel` (which prints the numeric code),
the diagnostic output emitted before exit contains the string `errorString()`
returns for the current error code. -/
theorem C10_exit_prints_errorString (apple : Bool) (gl_PBO : Nat) (env : InitEnv)
    (c : CLContext) (params : RenderParams) (writeRet : Int) (pc : Nat) (denv : DispatchEnv) :
    ((construct apple gl_PBO env c).status = .exited 1 →
        (construct apple gl_PBO env c).printsErrorString ∨
          (construct apple gl_PBO env c).endsAtBuildFailure env.buildLog) ∧
      ((setupScene env.scene c).status = .exited 1 →
        (setupScene env.scene c).printsErrorString) ∧
      ((setupParams env.params c).status = .exited 1 →
        (setupParams env.params c).printsErrorString) ∧
      ((updateParams params writeRet c).status = .exited 1 →
        (updateParams params writeRet c).printsErrorString) ∧
      ((executeKernel pc params denv c).status = .exited 1 →
        (executeKernel pc params denv c).printsErrorString ∨
          ((executeKernel pc params denv c).calls =
              [ .glFinish, .enqueueAcquireGLObjects c.cl_PBO, .setArg 0 c.cl_PBO,
                .setArg 1 c.sphereBuffer, .setArg 2 c.renderParams ] ∧
            (executeKernel pc params denv c).out =
              [ .str "Error: Failed to set kernel arguments! ",
                .int (executeKernel pc params denv c).ctx.err, .endl ])) :=
  ⟨construct_fatalReport apple gl_PBO env c, setupScene_exit_prints _ c,
    setupParams_exit_prints _ c, updateParams_exit_prints params writeRet c,
    executeKernel_exit_prints pc params denv c⟩

/-- C10, witness: a parameter write that fails with code -5 exits after printing
the name of that code. -/
theorem C10_exit_prints_errorString_witness :
    (updateParams sampleParams (-5) sampleCtx).status = .exited 1 ∧
      (updateParams sampleParams (-5) sampleCtx).printsErrorString ∧
      (updateParams sampleParams (-5) sampleCtx).out =
        [.str "Error: RenderParam writing failed!", .endl, .str "CL_OUT_OF_RESOURCES", .endl] :=
  ⟨by decide,
    (C10_exit_prints_errorString false 7 okInit sampleCtx sampleParams (-5) 24
      okDispatch).2.2.2.1 (by decide),
    by decide⟩



/-! ## Lemmas: buffer management -/

theorem setupScene_cases (env : SceneEnv) (c : CLContext) :
    ((setupScene env c).status = .exited 1 ∧ (env.buffer.2 ≠ 0 ∨ env.writeRet ≠ 0)) ∨
      ((setupScene env c).status = .returned ∧ env.buffer.2 = 0 ∧ env.writeRet = 0 ∧
        (setupScene env c).ops =
          [ ⟨.createBuffer c.context .CL_MEM_READ_WRITE .sizeof_test_spheres, 0⟩,
            ⟨.enqueueWriteBuffer env.buffer.1 true 0 .sizeof_test_spheres .test_spheres, 0⟩ ] ∧
        (setupScene env c).ctx = { c with sphereBuffer := env.buffer.1, err := 0 }) := by
  unfold setupScene
  simp only []
  by_cases h : env.buffer.2 ≠ 0
  · rw [if_pos h]
    exact Or.inl ⟨exitWithErrorString_status _ _ _, Or.inl h⟩
  · rw [if_neg h]
    have hz : env.buffer.2 = 0 := by simpa using h
    by_cases h2 : env.writeRet ≠ 0
    · rw [if_pos h2]
      obtain ⟨s, hs⟩ := errorString_isSome env.writeRet
      simp only [hs]
      simp [h2]
    · rw [if_neg h2]
      have hz2 : env.writeRet = 0 := by simpa using h2
      refine Or.inr ⟨rfl, hz, hz2, ?_, ?_⟩
      · simp [hz, hz2]
      · simp [hz, hz2]

theorem updateParams_cases (params : RenderParams) (writeRet : Int) (c : CLContext) :
    (updateParams params writeRet c).ops =
        [⟨.enqueueWriteBuffer c.renderParams true 0 .sizeof_RenderParams (.params params),
          writeRet⟩] ∧
      (updateParams params writeRet c).ctx = { c with err := writeRet } ∧
      (writeRet ≠ 0 → (updateParams params writeRet c).status = .exited 1) ∧
      (writeRet = 0 → (updateParams params writeRet c).status = .returned) := by
  unfold updateParams
  simp only []
  by_cases h : writeRet ≠ 0
  · rw [if_pos h]
    exact ⟨exitWithErrorString_ops _ _ _, exitWithErrorString_ctx _ _ _,
      fun _ => exitWithErrorString_status _ _ _, fun hz => absurd hz h⟩
  · rw [if_neg h]
    exact ⟨rfl, rfl, fun hn => absurd hn h, fun _ => rfl⟩

/-! ## Buffer management (C12, C13) -/

/-- C12: for every outcome of the allocation and of the upload, `setupScene`
either terminates the process (when the allocation or the upload failed) or
returns after exactly two driver calls that both succeeded: the allocation of a
buffer of the byte size of the primitive array, and one blocking write of the
whole array (offset 0, the same byte size) into that buffer; the buffer is then
the scene buffer of the context and holds the primitive array. It never returns
after a failed allocation or a failed upload. -/
theorem C12_setupScene_atomic (env : SceneEnv) (c : CLContext) (m : DeviceMem) :
    ((setupScene env c).status = .exited 1 ∧ (env.buffer.2 ≠ 0 ∨ env.writeRet ≠ 0)) ∨
      ((setupScene env c).status = .returned ∧ env.buffer.2 = 0 ∧ env.writeRet = 0 ∧
        (setupScene env c).ops =
          [ ⟨.createBuffer c.context .CL_MEM_READ_WRITE .sizeof_test_spheres, 0⟩,
            ⟨.enqueueWriteBuffer env.buffer.1 true 0 .sizeof_test_spheres .test_spheres, 0⟩ ] ∧
        (setupScene env c).ctx.sphereBuffer = env.buffer.1 ∧
        (setupScene env c).deviceAfter m env.buffer.1 = some .test_spheres) := by
  rcases setupScene_cases env c with h | ⟨h1, h2, h3, h4, h5⟩
  · exact Or.inl h
  · refine Or.inr ⟨h1, h2, h3, h4, ?_, ?_⟩
    · rw [h5]
    · unfold Run.deviceAfter
      rw [h4]
      simp [Call.effect, HostData.size]

/-- C13: for every `RenderParams` record `p`, `updateParams(p)` performs exactly
one driver call, a blocking write of the full record (offset 0, size of the
whole record) into the render-parameters buffer; when the write succeeds the
function returns and the device record equals `p`; no other buffer changes, the
scene buffer and the shared image buffer of the context stay the same; a failed
write terminates the process. -/
theorem C13_updateParams_write (p : RenderParams) (writeRet : Int) (c : CLContext)
    (m : DeviceMem) :
    (updateParams p writeRet c).calls =
        [.enqueueWriteBuffer c.renderParams true 0 .sizeof_RenderParams (.params p)] ∧
      (writeRet = 0 → (updateParams p writeRet c).status = .returned ∧
        (updateParams p writeRet c).deviceAfter m c.renderParams = some (.params p)) ∧
      (∀ h, h ≠ c.renderParams → (updateParams p writeRet c).deviceAfter m h = m h) ∧
      (updateParams p writeRet c).ctx.sphereBuffer = c.sphereBuffer ∧
      (updateParams p writeRet c).ctx.cl_PBO = c.cl_PBO ∧
      (updateParams p writeRet c).ctx.renderParams = c.renderParams ∧
      (writeRet ≠ 0 → (updateParams p writeRet c).status = .exited 1) := by
  obtain ⟨hops, hctx, hfail, hok⟩ := updateParams_cases p writeRet c
  refine ⟨?_, ?_, ?_, ?_, ?_, ?_, hfail⟩
  · unfold Run.calls; rw [hops]; rfl
  · intro hz
    refine ⟨hok hz, ?_⟩
    unfold Run.deviceAfter
    rw [hops]
    simp [Call.effect, HostData.size, hz]
  · intro h hne
    unfold Run.deviceAfter
    rw [hops]
    simp [Call.effect, hne]
  · rw [hctx]
  · rw [hctx]
  · rw [hctx]

/-- C13, witness: a successful update of the sample record leaves that record in
the render-parameters buffer (handle 15) and the scene buffer (handle 14) as it
was; a failed update (code -5) exits. -/
theorem C13_updateParams_write_witness :
    ((0 : Int) = 0 ∧ (updateParams sampleParams 0 sampleCtx).status = .returned ∧
      (updateParams sampleParams 0 sampleCtx).deviceAfter
        (fun h => if h = 14 then some .test_spheres else none) 15
        = some (.params sampleParams) ∧
      (updateParams sampleParams 0 sampleCtx).deviceAfter
        (fun h => if h = 14 then some .test_spheres else none) 14 = some .test_spheres) ∧
      ((-5 : Int) ≠ 0 ∧ (updateParams sampleParams (-5) sampleCtx).status = .exited 1) :=
  ⟨⟨rfl,
      ((C13_updateParams_write sampleParams 0 sampleCtx
        (fun h => if h = 14 then some .test_spheres else none)).2.1 rfl).1,
      ((C13_updateParams_write sampleParams 0 sampleCtx
        (fun h => if h = 14 then some .test_spheres else none)).2.1 rfl).2,
      by decide⟩,
    ⟨by decide,
      (C13_updateParams_write sampleParams (-5) sampleCtx (fun _ => none)).2.2.2.2.2.2
        (by decide)⟩⟩

/-! ## Lemmas: device selection -/

theorem andThen_returned (r : Run) (f : CLContext → Run)
    (h : (r.andThen f).status = .returned) :
    r.status = .returned ∧ (f r.ctx).status = .returned ∧
      (r.andThen f).ctx = (f r.ctx).ctx ∧ (r.andThen f).ops = r.ops ++ (f r.ctx).ops := by
  unfold Run.andThen at h ⊢
  cases hs : r.status with
  | returned =>
    rw [hs] at h
    exact ⟨rfl, h, rfl, rfl⟩
  | exited code =>
    rw [hs] at h
    simp only [] at h
    rw [hs] at h
    exact Status.noConfusion h
  | undefined =>
    rw [hs] at h
    simp only [] at h
    rw [hs] at h
    exact Status.noConfusion h

theorem createCommandQueue_clDevices (env : InitEnv) (c : CLContext) :
    (createCommandQueue env c).ctx.clDevices = c.clDevices := by
  unfold createCommandQueue
  simp only []
  split_ifs
  · rw [exitWithErrorString_ctx]
  · rfl

theorem createProgram_clDevices (env : InitEnv) (c : CLContext) :
    (createProgram env c).ctx.clDevices = c.clDevices := by
  unfold createProgram
  simp only []
  split_ifs
  · rw [exitWithErrorString_ctx]
  · rfl

theorem buildProgram_clDevices (env : InitEnv) (c : CLContext) :
    (buildProgram env c).ctx.clDevices = c.clDevices := by
  unfold buildProgram
  simp only []
  split_ifs <;> rfl

theorem createKernel_clDevices (env : InitEnv) (c : CLContext) :
    (createKernel env c).ctx.clDevices = c.clDevices := by
  unfold createKernel
  simp only []
  split_ifs
  · rw [exitWithErrorString_ctx]
  · rfl

theorem createPBO_clDevices (gl_PBO : Nat) (created : Nat × Int) (c : CLContext) :
    (createPBO gl_PBO created c).ctx.clDevices = c.clDevices := by
  unfold createPBO
  simp only []
  split_ifs <;> rfl

theorem setupScene_clDevices (env : SceneEnv) (c : CLContext)
    (h : (setupScene env c).status = .returned) :
    (setupScene env c).ctx.clDevices = c.clDevices := by
  rcases setupScene_cases env c with ⟨h1, _⟩ | ⟨_, _, _, _, h5⟩
  · rw [h1] at h; exact Status.noConfusion h
  · rw [h5]

theorem setupParams_clDevices (buffer : Nat × Int) (c : CLContext) :
    (setupParams buffer c).ctx.clDevices = c.clDevices := by
  unfold setupParams
  simp only []
  split_ifs
  · rw [exitWithErrorString_ctx]
  · rfl

/-- A shared-context step that returns was handed a non-empty device list, which
it passed to the context creation and kept. -/
theorem createSharedContext_returned (apple : Bool) (env : InitEnv) (c : CLContext)
    (h : (createSharedContext apple env c).status = .returned) :
    c.clDevices ≠ [] ∧ (createSharedContext apple env c).ctx.clDevices = c.clDevices ∧
      env.context.2 = 0 ∧
      (createSharedContext apple env c).ops = [⟨.createContext c.clDevices, env.context.2⟩] := by
  unfold createSharedContext at h ⊢
  simp only [] at h ⊢
  by_cases hc : env.context.2 ≠ 0
  · rw [if_pos hc] at h
    rw [exitWithErrorString_status] at h
    exact Status.noConfusion h
  · rw [if_neg hc] at h ⊢
    cases hd : c.clDevices with
    | nil => simp [hd] at h
    | cons d ds => simp [hd]; simpa using hc

/-- A device selection that returns found a first platform with at least one GPU
device and kept all but the first of its GPU devices. -/
theorem selectDevices_returned (env : InitEnv) (c : CLContext)
    (h : (selectDevices env c).status = .returned) :
    ∃ p ps d, env.platforms = p :: ps ∧
      (gpuDevices p).map Device.id = d :: (selectDevices env c).ctx.clDevices := by
  unfold selectDevices at h ⊢
  cases hp : env.platforms with
  | nil => simp [hp] at h
  | cons p ps =>
    simp only [hp] at h ⊢
    cases hg : (gpuDevices p).map Device.id with
    | nil => simp [hg] at h
    | cons d ds => exact ⟨p, ps, d, rfl, by simp [hg]⟩

/-- A construction that returns passed a non-empty device list to the context
creation: the GPU devices of the first platform without the first of them. -/
theorem construct_returned_devices (apple : Bool) (gl_PBO : Nat) (env : InitEnv)
    (c : CLContext) (h : (construct apple gl_PBO env c).status = .returned) :
    ∃ p ps d, env.platforms = p :: ps ∧
      (gpuDevices p).map Device.id = d :: (construct apple gl_PBO env c).ctx.clDevices ∧
      (construct apple gl_PBO env c).ctx.clDevices ≠ [] ∧
      DevOp.createContext (construct apple gl_PBO env c).ctx.clDevices ∈
        (construct apple gl_PBO env c).calls := by
  unfold construct at h ⊢
  obtain ⟨h9, h9', e9, o9⟩ := andThen_returned _ _ h
  obtain ⟨h8, h8', e8, o8⟩ := andThen_returned _ _ h9
  obtain ⟨h7, h7', e7, o7⟩ := andThen_returned _ _ h8
  obtain ⟨h6, h6', e6, o6⟩ := andThen_returned _ _ h7
  obtain ⟨h5, h5', e5, o5⟩ := andThen_returned _ _ h6
  obtain ⟨h4, h4', e4, o4⟩ := andThen_returned _ _ h5
  obtain ⟨h3, h3', e3, o3⟩ := andThen_returned _ _ h4
  obtain ⟨h2, h2', e2, o2⟩ := andThen_returned _ _ h3
  obtain ⟨h1, h1', e1, o1⟩ := andThen_returned _ _ h2
  obtain ⟨hne, hkeep, _, hops⟩ := createSharedContext_returned apple env _ h2'
  obtain ⟨p, ps, d, hp, hd⟩ := selectDevices_returned env _ h1'
  have hdev : (((((((((printDevices env c).andThen (selectDevices env)).andThen
      (createSharedContext apple env)).andThen (createCommandQueue env)).andThen
      (createProgram env)).andThen (buildProgram env)).andThen (createKernel env)).andThen
      (createPBO gl_PBO env.pbo)).andThen (setupScene env.scene) |>.andThen
      (setupParams env.params)).ctx.clDevices
      = ((printDevices env c).andThen (selectDevices env)).ctx.clDevices := by
    rw [e9, setupParams_clDevices, e8, setupScene_clDevices _ _ h8', e7, createPBO_clDevices, e6,
      createKernel_clDevices, e5, buildProgram_clDevices, e4, createProgram_clDevices, e3,
      createCommandQueue_clDevices, e2, hkeep]
  refine ⟨p, ps, d, hp, ?_, ?_, ?_⟩
  · rw [hdev, e1]; exact hd
  · rw [hdev]; exact hne
  · rw [hdev]
    unfold Run.calls
    rw [o9, o8, o7, o6, o5, o4, o3, o2, hops]
    simp

/-! ## Device selection (C11) -/

/-- C11, evaluation at the failing input: the first platform has no GPU device
(its only device is a CPU). The constructor queries the GPU devices, gets an
empty list and erases the first element of that empty list, which has no
defined behaviour; it neither creates a context nor calls `exit`. On a platform
with exactly one GPU device the list handed to the context creation is empty,
and the process exits when the driver rejects it (code -30). -/
theorem C11_no_gpu_device_no_exit :
    (construct false 7 { okInit with platforms := [cpuOnlyPlatform] } freshCtx).status
        = .undefined ∧
      (construct false 7 { okInit with platforms := [cpuOnlyPlatform] } freshCtx).calls =
        [.platformGet, .getDevices 0 false, .platformGet, .getDevices 0 true] ∧
      (construct false 7 { okInit with platforms := [cpuOnlyPlatform] } freshCtx).ctx.clDevices
        = [] ∧
      (construct false 7 { okInit with platforms := [] } freshCtx).status = .undefined ∧
      (construct false 7 { okInit with platforms := [oneGpuPlatform], context := (0, -30) }
        freshCtx).status = .exited 1 ∧
      (construct false 7 { okInit with platforms := [oneGpuPlatform], context := (0, -30) }
        freshCtx).calls =
        [.platformGet, .getDevices 0 false, .platformGet, .getDevices 0 true,
          .createContext []] := by
  decide

/-! ## The error table against the OpenCL constants (C14) -/

/-- C14: the table has exactly 64 entries, and for every index `i` from 0 to 63
at which the table holds a name (a non-empty string), `errorString` with
`err = -i` returns that entry, which is the name of the OpenCL error constant
whose numeric value is `-i`; in particular 0 gives "CL_SUCCESS", -11 gives
"CL_BUILD_PROGRAM_FAILURE", -30 gives "CL_INVALID_VALUE", -54 gives
"CL_INVALID_WORK_GROUP_SIZE" and -63 gives "CL_INVALID_GLOBAL_WORK_SIZE". -/
theorem C14_table_names (i : Nat) (hi : i < 64) (hname : errors[i]? ≠ some "") :
    errors.length = 64 ∧ errorString (-(i : Int)) = errors[i]? ∧
      errorString (-(i : Int)) = clErrorName (-(i : Int)) ∧
      errorString 0 = some "CL_SUCCESS" ∧
      errorString (-11) = some "CL_BUILD_PROGRAM_FAILURE" ∧
      errorString (-30) = some "CL_INVALID_VALUE" ∧
      errorString (-54) = some "CL_INVALID_WORK_GROUP_SIZE" ∧
      errorString (-63) = some "CL_INVALID_GLOBAL_WORK_SIZE" := by
  refine ⟨rfl, (errorString_table i hi).1, ?_, by decide, by decide, by decide, by decide,
    by decide⟩
  interval_cases i <;> first | decide | exact absurd (by decide) hname

/-- C14, witness: index 54 holds a name, and the code -54 is answered by the name
of the OpenCL constant with the value -54. -/
theorem C14_table_names_witness :
    54 < 64 ∧ errors[54]? ≠ some "" ∧
      errorString (-54) = clErrorName (-54) ∧
      clErrorName (-54) = some "CL_INVALID_WORK_GROUP_SIZE" :=
  ⟨by decide, by decide, (C14_table_names 54 (by decide) (by decide)).2.2.1, by decide⟩

/-! ## The width expression as a round-up (C15) -/

theorem widthExpr_eq_roundUpMod32 (W : Nat) (hW : W < 2 ^ 32) :
    widthExpr W = roundUpMod32 W :=
  width_expr_eq W hW

/-- C15: for every unsigned 32-bit width `W` the bitmask expression used for the
global width equals the arithmetic round-up `((W + 31) / 32) * 32` computed
modulo `2 ^ 32`; it is the exact round-up (the least multiple of 32 that is
`>= W`) for every `W <= 2 ^ 32 - 32`, and it wraps to 0, a value smaller than
`W`, for every `W > 2 ^ 32 - 32`. -/
theorem C15_width_expr_refines_roundUp (W : Nat) (hW : W < 2 ^ 32) :
    widthExpr W = roundUpMod32 W ∧ wgMultipleWidth W = toInt32 (widthExpr W) ∧
      (W ≤ 2 ^ 32 - 32 → widthExpr W = (W + 31) / 32 * 32 ∧ 32 ∣ widthExpr W ∧
        W ≤ widthExpr W ∧ widthExpr W < W + 32) ∧
      (2 ^ 32 - 32 < W → widthExpr W = 0 ∧ widthExpr W < W) := by
  have h := widthExpr_eq_roundUpMod32 W hW
  refine ⟨h, rfl, ?_, ?_⟩
  · intro hle
    have hlt : (W + 31) / 32 * 32 < 2 ^ 32 := by omega
    have he : widthExpr W = (W + 31) / 32 * 32 := by
      rw [h]; unfold roundUpMod32; exact Nat.mod_eq_of_lt hlt
    rw [he]
    exact ⟨rfl, Nat.dvd_mul_left _ _, by omega, by omega⟩
  · intro hgt
    have he : widthExpr W = 0 := by
      rw [h]; unfold roundUpMod32; omega
    rw [he]
    exact ⟨rfl, by omega⟩

/-- C15, witness: the width 801 is rounded up to 832, the width `2 ^ 32 - 1`
wraps to 0. -/
theorem C15_width_expr_refines_roundUp_witness :
    (801 < 2 ^ 32 ∧ 801 ≤ 2 ^ 32 - 32 ∧ widthExpr 801 = 832) ∧
      (4294967295 < 2 ^ 32 ∧ 2 ^ 32 - 32 < 4294967295 ∧ widthExpr 4294967295 = 0 ∧
        widthExpr 4294967295 < 4294967295) :=
  ⟨⟨by norm_num, by norm_num,
      ((C15_width_expr_refines_roundUp 801 (by norm_num)).2.2.1 (by norm_num)).1⟩,
    ⟨by norm_num, by norm_num,
      ((C15_width_expr_refines_roundUp 4294967295 (by norm_num)).2.2.2 (by norm_num)).1,
      ((C15_width_expr_refines_roundUp 4294967295 (by norm_num)).2.2.2 (by norm_num)).2⟩⟩

/-! ## The divisor of the height rounding (C16) -/

theorem rneDiv_ge (n d : Nat) : n / d ≤ rneDiv n d := by
  unfold rneDiv
  split_ifs <;> omega

theorem roundNat_pos (p n : Nat) (hp : 1 ≤ p) (hn : 1 ≤ n) : 1 ≤ roundNat p n := by
  unfold roundNat
  split_ifs with h
  · exact hn
  · have hs := (ilog2_spec n hn).1
    have hle : 2 ^ (ilog2 n + 1 - p) ≤ 2 ^ ilog2 n :=
      Nat.pow_le_pow_right (by norm_num) (by omega)
    have hpos : 0 < 2 ^ (ilog2 n + 1 - p) := Nat.two_pow_pos _
    have h1 : 1 ≤ n / 2 ^ (ilog2 n + 1 - p) :=
      (Nat.one_le_div_iff hpos).mpr (le_trans hle hs)
    have h2 := rneDiv_ge n (2 ^ (ilog2 n + 1 - p))
    exact Nat.mul_pos (by omega) hpos

/-- The quotient inside `wgMutipleHeight` is taken by `heightDivisor`. -/
theorem wgMutipleHeight_divisor (pc H L : Nat) :
    wgMutipleHeight pc H L =
      if L = 0 then none
      else castInt (roundNat pc (ceilF (divF 24 (roundNat 24 H) (heightDivisor L))
        * roundNat pc L)) :=
  rfl

theorem heightDivisor_eq_zero (L : Nat) : heightDivisor L = 0 ↔ L = 0 := by
  unfold heightDivisor
  constructor
  · intro h
    by_contra hne
    have := roundNat_pos 24 L (by norm_num) (by omega)
    omega
  · rintro rfl
    decide

/-- With successful bindings and a successful device-info query, a maximum
work-group size below 32 leads the dispatch into the division by zero. -/
theorem executeKernel_small_group (pc : Nat) (params : RenderParams) (env : DispatchEnv)
    (c : CLContext)
    (hb : orInt32 (orInt32 (orInt32 0 env.setArg0) env.setArg1) env.setArg2 = 0)
    (hi : env.getInfoRet = 0) (hM : env.max_gw_size < 32) :
    (executeKernel pc params env c).status = .undefined := by
  have hL : env.max_gw_size / 32 = 0 := by omega
  unfold executeKernel
  simp only []
  rw [if_neg (by simpa using hb), if_neg (by simpa using hi)]
  simp [ndRangeSizes, globalRange, wgMutipleHeight, hL]

/-- C16: the local height `M / 32` is `>= 1` if and only if the reported maximum
work-group size `M` is `>= 32`. For `M >= 32` the divisor `(float) (M / 32)` of
the height rounding is not zero. For every `M < 32` the local height is 0, the
divisor is zero and the height rounding has no defined result; no guard of
`executeKernel` stops a dispatch before it: with successful bindings and a
successful device-info query the dispatch reaches the division. -/
theorem C16_height_divisor_guard (M : Nat) :
    (1 ≤ (ndRangeSizes M).2 ↔ 32 ≤ M) ∧
      (32 ≤ M → heightDivisor (ndRangeSizes M).2 ≠ 0) ∧
      (M < 32 → (ndRangeSizes M).2 = 0 ∧ heightDivisor (ndRangeSizes M).2 = 0 ∧
        (∀ pc H, wgMutipleHeight pc H (ndRangeSizes M).2 = none) ∧
        ∀ pc params env c, env.max_gw_size = M →
          orInt32 (orInt32 (orInt32 0 env.setArg0) env.setArg1) env.setArg2 = 0 →
          env.getInfoRet = 0 → (executeKernel pc params env c).status = .undefined) := by
  have hdef : (ndRangeSizes M).2 = M / 32 := rfl
  refine ⟨by rw [hdef]; omega, ?_, ?_⟩
  · intro h hz
    have := (heightDivisor_eq_zero _).mp hz
    rw [hdef] at this
    omega
  · intro h
    have hL : (ndRangeSizes M).2 = 0 := by rw [hdef]; omega
    refine ⟨hL, (heightDivisor_eq_zero _).mpr hL, ?_, ?_⟩
    · intro pc H
      rw [hL]; rfl
    · intro pc params env c hM hb hi
      exact executeKernel_small_group pc params env c hb hi (by omega)

/-- C16, witness: a device that reports a maximum work-group size of 16 gives
the local height 0, and the dispatch of an 800 x 600 frame reaches the division
by zero. -/
theorem C16_height_divisor_guard_witness :
    (16 < 32 ∧ (ndRangeSizes 16).2 = 0 ∧ wgMutipleHeight 24 600 (ndRangeSizes 16).2 = none ∧
      (executeKernel 24 sampleParams { okDispatch with max_gw_size := 16 } sampleCtx).status
        = .undefined) ∧
      (32 ≤ 256 ∧ heightDivisor (ndRangeSizes 256).2 ≠ 0) :=
  ⟨⟨by decide, ((C16_height_divisor_guard 16).2.2 (by decide)).1,
      ((C16_height_divisor_guard 16).2.2 (by decide)).2.2.1 24 600,
      ((C16_height_divisor_guard 16).2.2 (by decide)).2.2.2 24 sampleParams
        { okDispatch with max_gw_size := 16 } sampleCtx rfl (by decide) rfl⟩,
    ⟨by decide, (C16_height_divisor_guard 256).2.1 (by decide)⟩⟩

end Fluctus
